import Mathlib

/-!
Verification of the Session & Local Store Core of the WhatsApp MCP server
(`src/services/whatsapp-client.ts`).

The TypeScript code is shallowly embedded: JavaScript `Map`s become
association lists with JS `Map.set` semantics (in-place update of an existing
key, append otherwise), JS numbers become an inductive with an explicit
`NaN` / infinity case where the code checks `Number.isFinite`, the stable
`Array.prototype.sort` becomes `List.insertionSort` (stable), and clock reads
(`Date.now()`) become an explicit `nowMs` parameter.  Transport (Baileys)
calls are oracle parameters carrying the call's outcome.
-/

namespace Whatsapp

/-! ### JavaScript numeric values (`toNumberSafe`, `toUnixSeconds`) -/

/-- A JavaScript number as far as the client's numeric code distinguishes
them: a finite (integral) value, `NaN`, or a signed infinity.  The
timestamps and sizes handled by the client are integral, so finite values
are carried as `Int`; float rounding/overflow is not modelled. -/
inductive JsNumber where
  | finite (val : Int)
  | nan
  | posInf
  | negInf
deriving Repr, DecidableEq

/-- `Number.isFinite`. -/
def JsNumber.isFinite : JsNumber → Bool
  | .finite _ => true
  | _ => false

/-- A heterogeneous JavaScript value arriving from the wire in the
`messageTimestamp` / `fileLength` / `seconds` positions.

* `num`: a plain JS number (`typeof value === "number"`).
* `bigInt`: a JS bigint (`typeof value === "bigint"`).
* `obj`: an object (a protobuf "Long" or similar); `toNumberResult` is the
  value of `value.toNumber()` when a `toNumber` method exists, and
  `toStringNum` is the value of `Number(value.toString())` when a `toString`
  method exists (`NaN` for the default object `toString`).
* `nullish`: `null` or `undefined` (both falsy, neither number nor object
  for the purposes of the checks below).
* `str` / `boolean`: other primitive shapes; they reach the fallback. -/
inductive WireValue where
  | num (x : JsNumber)
  | bigInt (n : Int)
  | obj (toNumberResult : Option JsNumber) (toStringNum : Option JsNumber)
  | nullish
  | str (s : String)
  | boolean (b : Bool)
deriving Repr, DecidableEq

/-- `toNumberSafe` (whatsapp-client.ts:966-981): numeric coercion used for
media `fileLength` / `seconds`; returns `undefined` (here `none`) when no
finite conversion exists.  `Number(bigint)` is modelled as exact. -/
def toNumberSafe (value : WireValue) : Option Int :=
  match value with
  | .num x => match x with
      | .finite v => some v
      | _ => none
  | .bigInt n => some n
  | .obj toNumberResult toStringNum =>
      match toNumberResult with
      | some (.finite v) => some v
      | _ =>
          match toStringNum with
          | some (.finite v) => some v
          | _ => none
  | .nullish => none
  | .str _ => none
  | .boolean _ => none

/-- `toUnixSeconds` (whatsapp-client.ts:983-999): like `toNumberSafe` but
with a clock fallback `Math.floor(Date.now() / 1000)` instead of
`undefined`.  `nowMs` is the value `Date.now()` would return.  Note that a
non-finite plain number (`NaN`, `Infinity`) fails the
`Number.isFinite` test, is neither a bigint nor an object, and therefore
falls through to the clock fallback. -/
def toUnixSeconds (value : WireValue) (nowMs : Nat) : Int :=
  match value with
  | .num x => match x with
      | .finite v => v
      | _ => Int.ofNat (nowMs / 1000)
  | .bigInt n => n
  | .obj toNumberResult toStringNum =>
      match toNumberResult with
      | some (.finite v) => v
      | _ =>
          match toStringNum with
          | some (.finite v) => v
          | _ => Int.ofNat (nowMs / 1000)
  | .nullish => Int.ofNat (nowMs / 1000)
  | .str _ => Int.ofNat (nowMs / 1000)
  | .boolean _ => Int.ofNat (nowMs / 1000)

/-- The inputs on which `toUnixSeconds` converts without consulting the
clock: finite plain numbers, bigints, and objects whose `toNumber()` or
`Number(toString())` conversion is finite. -/
def convertsWithoutClock (value : WireValue) : Bool :=
  match value with
  | .num x => x.isFinite
  | .bigInt _ => true
  | .obj toNumberResult toStringNum =>
      (match toNumberResult with
       | some n => n.isFinite
       | none => false) ||
      (match toStringNum with
       | some n => n.isFinite
       | none => false)
  | .nullish => false
  | .str _ => false
  | .boolean _ => false

/-! ### `normalizeJid` (whatsapp-client.ts:765-773) -/

/-- The characters of the prefix stripped by `replace(/^whatsapp:/gi, "")`
(the characters of `"whatsapp:"`; the `i` flag is handled by lower-casing
each input candidate character). -/
def whatsappPrefix : List Char := ['w', 'h', 'a', 't', 's', 'a', 'p', 'p', ':']

/-- Case-insensitive prefix test: does `s` start with pattern `p` (given in
lower case), comparing `Char.toLower` of each character? -/
def ciPrefixMatches : List Char → List Char → Bool
  | [], _ => true
  | _ :: _, [] => false
  | p :: ps, c :: cs => (Char.toLower c == p) && ciPrefixMatches ps cs

/-- `input.replace(/^whatsapp:/gi, "")`: the anchored pattern removes one
leading `whatsapp:` (case-insensitively) if present.  (With `^` and no `m`
flag the `g` flag cannot produce a second replacement.) -/
def stripWhatsappPrefix (s : List Char) : List Char :=
  if ciPrefixMatches whatsappPrefix s then s.drop whatsappPrefix.length else s

/-- `normalizeJid` on character lists. `jid.includes("@")` is
`List.contains '@'` and `jid.replace(/[^0-9]/g, "")` is
`List.filter Char.isDigit`. -/
def normalizeJidChars (input : List Char) : List Char :=
  let jid := stripWhatsappPrefix input
  if jid.contains '@' then jid
  else
    let cleaned := jid.filter Char.isDigit
    if cleaned.length > 0 then cleaned ++ "@s.whatsapp.net".data
    else jid

/-- `normalizeJid` (whatsapp-client.ts:765-773). -/
def normalizeJid (input : String) : String :=
  String.mk (normalizeJidChars input.data)

/-! ### Persistence scheduler (`scheduleSaveChatStore`,
`scheduleSaveMessageStore`, whatsapp-client.ts:214-220 and 246-253) -/

/-- Scheduling state of one store's debounced writer: whether the debounce
timer is armed (`saveChatStoreTimer` / `saveMessageStoreTimer` is non-null)
and how many writes have been triggered so far (appended to the serialized
in-flight chain). -/
structure DebounceState where
  timerArmed : Bool
  writeCount : Nat
deriving Repr, DecidableEq

/-- `scheduleSaveChatStore` (whatsapp-client.ts:214-220): arm the timer
unless one is already armed. -/
def scheduleSaveChatStore (st : DebounceState) : DebounceState :=
  if st.timerArmed then st else { st with timerArmed := true }

/-- `scheduleSaveMessageStore` (whatsapp-client.ts:246-253): no-op when
message persistence is disabled, otherwise arm the timer unless one is
already armed. -/
def scheduleSaveMessageStore (persistMessages : Bool) (st : DebounceState) :
    DebounceState :=
  if persistMessages = false then st
  else if st.timerArmed then st
  else { st with timerArmed := true }

/-- The armed timer fires: the callback clears the timer field and triggers
exactly one asynchronous write (`void this.save…Async()`). -/
def debounceTimerFires (st : DebounceState) : DebounceState :=
  { timerArmed := false, writeCount := st.writeCount + 1 }

/-! ### Connection state machine (`connection.update` close handling,
whatsapp-client.ts:356-409) -/

/-- `ConnectionStatus` (whatsapp-client.ts:44-49). -/
structure ConnectionStatus where
  connected : Bool
  qrCode : Option String
  phoneNumber : Option String
  error : Option String
deriving Repr, DecidableEq

/-- The fields of `WhatsAppClient` that the connection lifecycle handler
reads and writes.  `socketPresent` models `this.socket !== null`;
`status` is `this._status` (the latest snapshot published through
`notifyConnection`). -/
structure ClientState where
  socketPresent : Bool
  status : ConnectionStatus
  qrDisplayed : Bool
  reconnectCount440 : Nat
  socketGeneration : Nat
deriving Repr, DecidableEq

/-- Baileys `DisconnectReason.loggedOut` (DOM status code 401). -/
def loggedOutStatusCode : Int := 401

/-- The conflict (session replaced elsewhere) close code checked literally
in the handler (`statusCode === 440`). -/
def conflictStatusCode : Int := 440

/-- What the `connection === "close"` branch does besides mutating state:
either nothing, or `setTimeout(reconnect, delayMs)`. -/
inductive CloseAction where
  | noAction
  | reconnect (delayMs : Nat)
deriving Repr, DecidableEq

/-- The status snapshot published on the conflict-loop guard
(whatsapp-client.ts:372-375). -/
def conflictErrorStatus : ConnectionStatus :=
  { connected := false, qrCode := none, phoneNumber := none,
    error := some "Connection conflict. Restart to reconnect." }

/-- The status snapshot published on a terminal logged-out close
(whatsapp-client.ts:390-393). -/
def loggedOutErrorStatus : ConnectionStatus :=
  { connected := false, qrCode := none, phoneNumber := none,
    error := some "Logged out from WhatsApp. Delete auth directory and re-scan QR code." }

/-- The `connection === "close"` branch of the `connection.update` handler
(whatsapp-client.ts:356-394).  `generation` is the generation captured when
the handler's socket was created; `statusCode` is
`(lastDisconnect?.error as Boom)?.output?.statusCode` (absent when there
was no error object). -/
def handleConnectionClose (generation : Nat) (statusCode : Option Int)
    (st : ClientState) : ClientState × CloseAction :=
  let shouldReconnect := statusCode ≠ some loggedOutStatusCode
  if generation ≠ st.socketGeneration then
    (st, CloseAction.noAction)
  else if shouldReconnect then
    if statusCode = some conflictStatusCode then
      let st1 : ClientState := { st with reconnectCount440 := st.reconnectCount440 + 1 }
      if st1.reconnectCount440 > 2 then
        ({ st1 with status := conflictErrorStatus }, CloseAction.noAction)
      else
        ({ st1 with qrDisplayed := false }, CloseAction.reconnect 5000)
    else
      ({ st with qrDisplayed := false }, CloseAction.reconnect 2000)
  else
    ({ st with status := loggedOutErrorStatus }, CloseAction.noAction)

/-- `isConnected` getter (whatsapp-client.ts:113-115). -/
def isConnected (st : ClientState) : Bool :=
  st.status.connected && st.socketPresent

/-! ### Message payloads and the classifier
(`extractTextAndType`, `extractMediaMeta`, whatsapp-client.ts:865-964) -/

/-- The fields the classifier and media extractor read off a media message
object (`mimetype`, `fileName`, `fileLength`, `seconds`, `ptt`); absent JS
fields are `none` / `nullish`, and `ptt` is already `Boolean(m.ptt)`. -/
structure MediaFields where
  mimetype : Option String
  fileName : Option String
  fileLength : WireValue
  seconds : WireValue
  ptt : Bool
deriving Repr, DecidableEq

/-- A raw inbound message payload (`msg.message`), as the tagged union the
dynamic shape-sniffing of `extractTextFromAnyMessage` distinguishes: the
single populated variant of the protobuf message.  `ephemeralWrap` is an
`ephemeralMessage` whose `.message` field is populated, `ephemeralEmpty`
one where it is absent.  `other` carries the first key of an unrecognized
variant. -/
inductive MessageContent where
  | conversation (text : String)
  | extendedText (text : Option String)
  | image (caption : Option String) (fields : MediaFields)
  | video (caption : Option String) (fields : MediaFields)
  | document (caption : Option String) (fields : MediaFields)
  | audio (fields : MediaFields)
  | sticker (fields : MediaFields)
  | buttonsResponse (selectedDisplayText : Option String)
  | listResponse (selectedRowId : Option String)
  | ephemeralEmpty
  | ephemeralWrap (inner : MessageContent)
  | other (tag : String)
deriving Repr, DecidableEq

/-- `Object.keys(m)[0]`: the JS property name of the populated variant. -/
def firstKey : MessageContent → String
  | .conversation _ => "conversation"
  | .extendedText _ => "extendedTextMessage"
  | .image _ _ => "imageMessage"
  | .video _ _ => "videoMessage"
  | .document _ _ => "documentMessage"
  | .audio _ => "audioMessage"
  | .sticker _ => "stickerMessage"
  | .buttonsResponse _ => "buttonsResponseMessage"
  | .listResponse _ => "listResponseMessage"
  | .ephemeralEmpty => "ephemeralMessage"
  | .ephemeralWrap _ => "ephemeralMessage"
  | .other tag => tag

/-- Baileys `normalizeMessageContent`: repeatedly unwrap wrapper messages
(for this model, populated ephemeral wrappers). -/
def normalizeContent : MessageContent → MessageContent
  | .ephemeralWrap inner => normalizeContent inner
  | c => c

/-- Baileys `normalizeMessageContent` lifted to a possibly-absent payload. -/
def normalizeMessageContent : Option MessageContent → Option MessageContent
  | none => none
  | some c => some (normalizeContent c)

/-- Baileys `getContentType`: the first key of the message object that is
`conversation` or ends in `Message`. -/
def getContentType (c : MessageContent) : Option String :=
  match c with
  | .other tag =>
      if tag = "conversation" ∨ "Message".data.isSuffixOf tag.data then some tag
      else none
  | _ => some (firstKey c)

/-- `ctype.replace(/Message$/, "")`. -/
def stripMessageSuffix (ctype : String) : String :=
  if "Message".data.isSuffixOf ctype.data then
    String.mk (ctype.data.take (ctype.data.length - 7))
  else ctype

/-- `content[ctype]` viewed as a media-field record: populated exactly for
the five media variants.  (For the non-media variants the source bails out
anyway: `conversation` holds a string, not an object, and every other
variant fails the known-media-kind test below.) -/
def mediaFieldsOf : MessageContent → Option MediaFields
  | .image _ f => some f
  | .video _ f => some f
  | .document _ f => some f
  | .audio f => some f
  | .sticker f => some f
  | _ => none

/-- `WhatsAppMedia` (whatsapp-client.ts:26-33); `kind` is one of
`image|video|document|audio|sticker|unknown`. -/
structure WhatsAppMedia where
  kind : String
  mimetype : Option String
  fileName : Option String
  fileLength : Option Int
  seconds : Option Int
  isVoiceNote : Option Bool
deriving Repr, DecidableEq

/-- `extractMediaMetaFromContent` (whatsapp-client.ts:885-919). -/
def extractMediaMetaFromContent (content : Option MessageContent) :
    Option WhatsAppMedia :=
  match content with
  | none => none
  | some c =>
      match getContentType c with
      | none => none
      | some ctype =>
          let mediaType := stripMessageSuffix ctype
          match mediaFieldsOf c with
          | none => none
          | some f =>
              let kind :=
                if mediaType = "image" ∨ mediaType = "video" ∨
                   mediaType = "document" ∨ mediaType = "audio" ∨
                   mediaType = "sticker"
                then mediaType else "unknown"
              if kind = "unknown" then none
              else some
                { kind := kind, mimetype := f.mimetype, fileName := f.fileName,
                  fileLength := toNumberSafe f.fileLength,
                  seconds := toNumberSafe f.seconds,
                  isVoiceNote := if kind = "audio" then some f.ptt else none }

/-- `extractTextFromAnyMessage` (whatsapp-client.ts:921-964): derive the
canonical `(text, type)` pair from the populated variant, first match wins
in the source's check order (the patterns here are disjoint, so the order
of arms is immaterial). -/
def extractTextFromAnyMessage (m : MessageContent) : String × String :=
  let tag := firstKey m
  match m with
  | .conversation t => (t, "text")
  | .extendedText (some t) => (t, "text")
  | .image (some c) _ => (c, "image")
  | .video (some c) _ => (c, "video")
  | .document (some c) _ => (c, "document")
  | .document none f =>
      match f.fileName with
      | some fn => ("[document: " ++ fn ++ "]", "document")
      | none => ("[" ++ tag ++ "]", tag)
  | .audio f => (if f.ptt then "[voice-note]" else "[audio]", "audio")
  | .image none _ => ("[image]", "image")
  | .video none _ => ("[video]", "video")
  | .sticker _ => ("[sticker]", "sticker")
  | .buttonsResponse (some t) => (t, "buttons_response")
  | .listResponse (some r) => (r, "list_response")
  | _ => ("[" ++ tag ++ "]", tag)

/-! ### Inbound raw events and the stored-message data model -/

/-- `msg.key` of a Baileys message (`remoteJid` and `id` can be absent). -/
structure MessageKey where
  remoteJid : Option String
  fromMe : Bool
  id : Option String
  participant : Option String
deriving Repr, DecidableEq

/-- A raw inbound message envelope as consumed by `addToMessageStore` and
kept in `rawMessageByKey`.  Transport-only passthrough fields
(`messageTimestampLow/High`, `isForwarded`, `isViewOnce`) are not read by
the code under verification and are not modelled. -/
structure RawEvent where
  key : MessageKey
  message : Option MessageContent
  messageTimestamp : WireValue
  messageStubType : Option Int
  pushName : Option String
deriving Repr, DecidableEq

/-- `StoredMessage` (whatsapp-client.ts:12-24, 53): a `WhatsAppMessage`
without `chatName`. -/
structure StoredMessage where
  id : String
  chatId : String
  sender : String
  senderName : String
  timestamp : Int
  text : String
  isFromMe : Bool
  isGroup : Bool
  type : String
  media : Option WhatsAppMedia
deriving Repr, DecidableEq

/-- `WhatsAppMessage` (whatsapp-client.ts:12-24). -/
structure WhatsAppMessage where
  id : String
  chatId : String
  chatName : String
  sender : String
  senderName : String
  timestamp : Int
  text : String
  isFromMe : Bool
  isGroup : Bool
  type : String
  media : Option WhatsAppMedia
deriving Repr, DecidableEq

/-! ### JavaScript `Map` as an association list -/

/-- `Map.get`. -/
def assocGet {β : Type} : List (String × β) → String → Option β
  | [], _ => none
  | (k, v) :: rest, key => if k = key then some v else assocGet rest key

/-- `Map.set`: update the existing entry in place, else append. -/
def assocSet {β : Type} : List (String × β) → String → β → List (String × β)
  | [], key, val => [(key, val)]
  | (k, v) :: rest, key, val =>
      if k = key then (key, val) :: rest else (k, v) :: assocSet rest key val

/-- `Map.keys()`. -/
def assocKeys {β : Type} (m : List (String × β)) : List String :=
  m.map Prod.fst

/-- `Map.has`. -/
def assocHas {β : Type} (m : List (String × β)) (k : String) : Bool :=
  (assocGet m k).isSome

/-! ### The bounded message store and the raw payload cache -/

/-- The two retention-coupled stores: `messageStore` and
`rawMessageByKey` (whatsapp-client.ts:86-87). -/
structure Stores where
  messageStore : List (String × List StoredMessage)
  rawMessageByKey : List (String × RawEvent)
deriving Repr, DecidableEq

/-- Both stores empty (the state at construction). -/
def emptyStores : Stores := { messageStore := [], rawMessageByKey := [] }

/-- The retention/persistence configuration read from the environment in
the constructor (whatsapp-client.ts:102-105). -/
structure StoreConfig where
  maxMessagesPerChat : Nat
  maxMessagesTotal : Nat
  persistMessages : Bool
deriving Repr, DecidableEq

/-- JS `x || fallback` on an optional string (absent and `""` are falsy). -/
def jsStringOr (v : Option String) (fallback : String) : String :=
  match v with
  | some s => if s = "" then fallback else s
  | none => fallback

/-- `s.split(sep)[0]`: everything before the first separator. -/
def splitFirst (s : String) (sep : Char) : String :=
  String.mk (s.data.takeWhile (fun c => c ≠ sep))

/-- `s.endsWith(p)`. -/
def strEndsWith (s p : String) : Bool :=
  p.data.isSuffixOf s.data

/-- `s.trim()`: strip leading and trailing whitespace. -/
def strTrim (s : String) : String :=
  String.mk (((s.data.dropWhile Char.isWhitespace).reverse.dropWhile
    Char.isWhitespace).reverse)

/-- The comparator `(a, b) => a.timestamp - b.timestamp` as a relation; the
source's `Array.prototype.sort` is stable, modelled by
`List.insertionSort` (stable). -/
def byTimestamp (a b : StoredMessage) : Prop :=
  a.timestamp ≤ b.timestamp

instance : DecidableRel byTimestamp :=
  fun a b => inferInstanceAs (Decidable (a.timestamp ≤ b.timestamp))

instance : IsTotal StoredMessage byTimestamp :=
  ⟨fun a b => Int.le_total a.timestamp b.timestamp⟩

instance : IsTrans StoredMessage byTimestamp :=
  ⟨fun _ _ _ hab hbc => le_trans hab hbc⟩

/-- `sorted.slice(Math.max(0, sorted.length - cap))` applied to the
timestamp-sorted copy of a chat's list: keep the newest `cap` entries. -/
def keepNewest (cap : Nat) (l : List StoredMessage) : List StoredMessage :=
  let sorted := List.insertionSort byTimestamp l
  sorted.drop (sorted.length - cap)

/-- The per-chat pass of `pruneMessageStore` (whatsapp-client.ts:790-795):
chats at or under the cap are left alone, oversized chats keep their newest
`cap` messages. -/
def pruneChatLists (cap : Nat) (ms : List (String × List StoredMessage)) :
    List (String × List StoredMessage) :=
  ms.map (fun kv => if kv.2.length ≤ cap then kv else (kv.1, keepNewest cap kv.2))

/-- `countMessages` (whatsapp-client.ts:775-779). -/
def countMessages (ms : List (String × List StoredMessage)) : Nat :=
  ms.foldl (fun n kv => n + kv.2.length) 0

/-- `flattenMessageStore` (whatsapp-client.ts:781-787): concatenate all
chat lists in map order. -/
def flattenMessageStore (ms : List (String × List StoredMessage)) :
    List StoredMessage :=
  ms.foldl (fun all kv => all ++ kv.2) []

/-- The global-prune rebuild (whatsapp-client.ts:805-810): clear the map
and re-append every surviving message under its own chat id. -/
def rebuildFromList (keep : List StoredMessage) :
    List (String × List StoredMessage) :=
  keep.foldl
    (fun st m => assocSet st m.chatId ((assocGet st m.chatId).getD [] ++ [m]))
    []

/-- The composite key `` `${chatId}:${id}` ``. -/
def rawKey (m : StoredMessage) : String :=
  m.chatId ++ ":" ++ m.id

/-- `pruneRawMessageStore` (whatsapp-client.ts:814-825): drop every cached
raw envelope whose key is no longer that of a retained stored message. -/
def pruneRawMessageStore (s : Stores) : Stores :=
  let keep := (flattenMessageStore s.messageStore).map rawKey
  { s with rawMessageByKey := s.rawMessageByKey.filter (fun kv => keep.contains kv.1) }

/-- `pruneMessageStore` (whatsapp-client.ts:789-812): per-chat pass, then
the global cap with a full rebuild, then lockstep raw-cache pruning. -/
def pruneMessageStore (cfg : StoreConfig) (s : Stores) : Stores :=
  let ms1 := pruneChatLists cfg.maxMessagesPerChat s.messageStore
  let total := countMessages ms1
  if total ≤ cfg.maxMessagesTotal then
    pruneRawMessageStore { s with messageStore := ms1 }
  else
    let all := List.insertionSort byTimestamp (flattenMessageStore ms1)
    let keep := all.drop (all.length - cfg.maxMessagesTotal)
    pruneRawMessageStore { s with messageStore := rebuildFromList keep }

/-- `extractTextAndType` (whatsapp-client.ts:865-878). -/
def extractTextAndType (msg : RawEvent) : String × String :=
  match msg.message with
  | none =>
      match msg.messageStubType with
      | some stub => ("[stub:" ++ toString stub ++ "]", "stub")
      | none => ("[no-content]", "unknown")
  | some m =>
      match m with
      | .ephemeralWrap inner => extractTextFromAnyMessage inner
      | _ => extractTextFromAnyMessage m

/-- `extractMediaMeta` (whatsapp-client.ts:880-883). -/
def extractMediaMeta (msg : RawEvent) : Option WhatsAppMedia :=
  extractMediaMetaFromContent (normalizeMessageContent msg.message)

/-- The `StoredMessage` derived from a raw event by `addToMessageStore`
(whatsapp-client.ts:827-855), for an event with a usable `remoteJid`.
`nowMs` feeds the clock fallback of `toUnixSeconds`. -/
def deriveStoredMessage (nowMs : Nat) (msg : RawEvent) (chatId : String) :
    StoredMessage :=
  let id := jsStringOr msg.key.id "unknown"
  let isFromMe := msg.key.fromMe
  let isGroup := strEndsWith chatId "@g.us"
  let timestamp := toUnixSeconds msg.messageTimestamp nowMs
  let sender := if isFromMe then "me" else jsStringOr msg.key.participant chatId
  let pushTrim := strTrim ((msg.pushName).getD "")
  let senderName := if pushTrim = "" then splitFirst sender '@' else pushTrim
  let tt := extractTextAndType msg
  { id := id, chatId := chatId, sender := sender, senderName := senderName,
    timestamp := timestamp, text := tt.1, isFromMe := isFromMe,
    isGroup := isGroup, type := tt.2, media := extractMediaMeta msg }

/-- `addToMessageStore` (whatsapp-client.ts:827-863): bail out on a falsy
`remoteJid`, append the derived message to its chat's list, cache the raw
envelope under `chatId:id`, and enforce retention.  (The final
`scheduleSaveMessageStore()` call acts on the scheduler state modelled by
`DebounceState`, not on the stores.) -/
def addToMessageStore (cfg : StoreConfig) (nowMs : Nat) (msg : RawEvent)
    (s : Stores) : Stores :=
  match msg.key.remoteJid with
  | none => s
  | some chatId =>
      if chatId = "" then s
      else
        let stored := deriveStoredMessage nowMs msg chatId
        let list := (assocGet s.messageStore chatId).getD []
        let s1 : Stores :=
          { messageStore := assocSet s.messageStore chatId (list ++ [stored]),
            rawMessageByKey :=
              assocSet s.rawMessageByKey (chatId ++ ":" ++ stored.id) msg }
        pruneMessageStore cfg s1

/-- `loadMessageStore` (whatsapp-client.ts:151-170): group the persisted
flat array by chat id in array order (skipping entries with a falsy
`chatId`), then run one retention pass.  File-system and JSON-parsing
failures abort the load and are not modelled. -/
def loadMessageStore (cfg : StoreConfig) (file : List StoredMessage)
    (s : Stores) : Stores :=
  if cfg.persistMessages = false then s
  else
    let loaded := file.foldl
      (fun ms e =>
        if e.chatId = "" then ms
        else assocSet ms e.chatId ((assocGet ms e.chatId).getD [] ++ [e]))
      s.messageStore
    pruneMessageStore cfg { s with messageStore := loaded }

/-- The synthetic raw envelope `loadRawMessageStore` rebuilds from a
persisted `StoredMessage` (whatsapp-client.ts:189-200).  The persisted form
carries no `message`, `pushName`, `participant` or `stubType` field, and
its from-self flag is stored as `isFromMe`, so `entry?.fromMe || false`
yields `false`. -/
def reconstructRawEvent (e : StoredMessage) : RawEvent :=
  { key := { remoteJid := some e.chatId, fromMe := false, id := some e.id,
             participant := none },
    message := none,
    messageTimestamp := WireValue.num (JsNumber.finite e.timestamp),
    messageStubType := none,
    pushName := none }

/-- `loadRawMessageStore` (whatsapp-client.ts:172-212): for every persisted
entry with usable `chatId` and `id`, cache a reconstructed envelope under
`chatId:id` unless the key is already cached.  Note: no retention pass
follows. -/
def loadRawMessageStore (cfg : StoreConfig) (file : List StoredMessage)
    (s : Stores) : Stores :=
  if cfg.persistMessages = false then s
  else
    file.foldl
      (fun st e =>
        if e.chatId = "" ∨ e.id = "" then st
        else
          let key := e.chatId ++ ":" ++ e.id
          if assocHas st.rawMessageByKey key then st
          else { st with rawMessageByKey :=
                   assocSet st.rawMessageByKey key (reconstructRawEvent e) })
      s

/-- A whole inbound event history applied to the stores: each element is an
event together with the clock value at its arrival. -/
def applyEvents (cfg : StoreConfig) (events : List (RawEvent × Nat))
    (s : Stores) : Stores :=
  events.foldl (fun st e => addToMessageStore cfg e.2 e.1 st) s

/-- The `(chatId, id)` pair `addToMessageStore` would file an event under
(`none` when the event is discarded for a falsy `remoteJid`). -/
def eventKey (msg : RawEvent) : Option (String × String) :=
  match msg.key.remoteJid with
  | none => none
  | some c => if c = "" then none else some (c, jsStringOr msg.key.id "unknown")

/-- The retention-coupling invariant: every key of the raw payload cache is
the key of some retained stored message. -/
def rawSubsetHolds (s : Stores) : Bool :=
  (assocKeys s.rawMessageByKey).all
    (fun k => ((flattenMessageStore s.messageStore).map rawKey).contains k)

/-! ### Chat directory and the session facade
(`getChats` … `getContactName`, whatsapp-client.ts:484-763) -/

/-- A chat-directory record (whatsapp-client.ts:83). -/
structure ChatEntry where
  id : String
  name : String
  isGroup : Bool
  conversationTimestamp : Option Int
deriving Repr, DecidableEq

/-- `WhatsAppChat` (whatsapp-client.ts:35-42), as returned by `getChats`
(which always fills `unreadCount := 0` and leaves the last-message fields
absent). -/
structure WhatsAppChat where
  id : String
  name : String
  isGroup : Bool
  unreadCount : Nat
deriving Repr, DecidableEq

/-- `ensureConnected` (whatsapp-client.ts:484-491): the descriptive error
thrown by every guarded facade operation. -/
def notConnectedMsg : String :=
  "WhatsApp is not connected. Please wait for QR code scan and connection to complete."

/-- `ensureConnected` (whatsapp-client.ts:484-491). -/
def ensureConnected (st : ClientState) : Except String Unit :=
  if !st.socketPresent || !isConnected st then Except.error notConnectedMsg
  else Except.ok ()

/-- `getStatus`: the `status` getter (whatsapp-client.ts:109-111), exposed
unguarded by the status tool. -/
def getStatus (st : ClientState) : ConnectionStatus :=
  st.status

/-- The `getChats` sort comparator
`(a, b) => (b.conversationTimestamp || 0) - (a.conversationTimestamp || 0)`
(descending by last activity). -/
def byChatTimestampDesc (a b : ChatEntry) : Prop :=
  b.conversationTimestamp.getD 0 ≤ a.conversationTimestamp.getD 0

instance : DecidableRel byChatTimestampDesc :=
  fun a b =>
    inferInstanceAs (Decidable (b.conversationTimestamp.getD 0 ≤ a.conversationTimestamp.getD 0))

/-- `getChats` (whatsapp-client.ts:493-535).  `fallbackGroups` is the
oracle for the `groupFetchAllParticipating` race used only when the chat
store is empty; a failure there is caught and turned into `[]`.  (The
fallback path's opportunistic chat-store write-back and save scheduling
mutate state that this claim does not read and are not modelled.) -/
def getChats (st : ClientState) (chatStore : List (String × ChatEntry))
    (fallbackGroups : Except String (List (String × Option String)))
    (limit : Nat) : Except String (List WhatsAppChat) :=
  match ensureConnected st with
  | Except.error e => Except.error e
  | Except.ok _ =>
      if chatStore.length > 0 then
        let allChats :=
          (List.insertionSort byChatTimestampDesc (chatStore.map Prod.snd)).take limit
        Except.ok (allChats.map (fun chat =>
          { id := chat.id,
            name := jsStringOr (some chat.name) (splitFirst chat.id '@'),
            isGroup := chat.isGroup, unreadCount := 0 }))
      else
        match fallbackGroups with
        | Except.error _ => Except.ok []
        | Except.ok convs =>
            Except.ok ((convs.take limit).map (fun g =>
              { id := g.1, name := jsStringOr g.2 (splitFirst g.1 '@'),
                isGroup := true, unreadCount := 0 }))

/-- The transport's answer to a `sock.sendMessage` call. -/
structure SendResult where
  keyId : Option String
  messageTimestamp : WireValue
deriving Repr, DecidableEq

/-- `sendMessage` (whatsapp-client.ts:537-548); `transportSend` is the
oracle for the awaited `sock.sendMessage(normalizedId, { text })`. -/
def sendMessage (st : ClientState) (transportSend : Except String SendResult)
    (nowMs : Nat) (chatId : String) (text : String) :
    Except String (String × Int) :=
  match ensureConnected st with
  | Except.error e => Except.error e
  | Except.ok _ =>
      let normalizedId := normalizeJid chatId
      let textSent := text
      let keep := (normalizedId, textSent)
      match keep, transportSend with
      | _, Except.error e => Except.error e
      | _, Except.ok result =>
          Except.ok (jsStringOr result.keyId "unknown",
            toUnixSeconds result.messageTimestamp nowMs)

/-- `sendFile` (whatsapp-client.ts:550-595); `fileAccess` is the oracle for
the early `fs.promises.access` readability check and `transportSend` for
the media send. -/
def sendFile (st : ClientState) (fileAccess : Except String Unit)
    (transportSend : Except String SendResult) (nowMs : Nat)
    (chatId filePath : String) : Except String (String × Int) :=
  match ensureConnected st with
  | Except.error e => Except.error e
  | Except.ok _ =>
      let normalizedId := normalizeJid chatId
      let keep := (normalizedId, filePath)
      match keep, fileAccess with
      | _, Except.error e => Except.error e
      | _, Except.ok _ =>
          match transportSend with
          | Except.error e => Except.error e
          | Except.ok result =>
              Except.ok (jsStringOr result.keyId "unknown",
                toUnixSeconds result.messageTimestamp nowMs)

/-- The not-found error of `downloadMedia` (whatsapp-client.ts:606-611). -/
def downloadNotFoundMsg : String :=
  "Message not found in the in-memory store. The server can only download media for messages it has observed since it started."

/-- The not-found error of `getMedia` (whatsapp-client.ts:659-664). -/
def getMediaNotFoundMsg : String :=
  "Message not found in the in-memory store. The server can only get media for messages it has observed since it started."

/-- The `{ kind: "unknown" }` default media record. -/
def unknownMedia : WhatsAppMedia :=
  { kind := "unknown", mimetype := none, fileName := none, fileLength := none,
    seconds := none, isVoiceNote := none }

/-- `downloadMedia` (whatsapp-client.ts:597-648) up to its media metadata
result; `downloadResult` is the oracle for the awaited
`downloadMediaMessage` buffer (its length), and the file-system write and
name sanitisation are not modelled. -/
def downloadMedia (st : ClientState) (s : Stores)
    (downloadResult : Except String Nat) (chatId messageId : String) :
    Except String WhatsAppMedia :=
  match ensureConnected st with
  | Except.error e => Except.error e
  | Except.ok _ =>
      let key := normalizeJid chatId ++ ":" ++ messageId
      match assocGet s.rawMessageByKey key with
      | none => Except.error downloadNotFoundMsg
      | some msg =>
          let meta := (extractMediaMetaFromContent
            (normalizeMessageContent msg.message)).getD unknownMedia
          match downloadResult with
          | Except.error e => Except.error e
          | Except.ok len =>
              Except.ok { meta with fileLength := some (Int.ofNat len) }

/-- `getMedia` (whatsapp-client.ts:650-695); a failed download is wrapped
in a `Failed to download media:` error. -/
def getMedia (st : ClientState) (s : Stores)
    (downloadResult : Except String Nat) (chatId messageId : String) :
    Except String WhatsAppMedia :=
  match ensureConnected st with
  | Except.error e => Except.error e
  | Except.ok _ =>
      let key := normalizeJid chatId ++ ":" ++ messageId
      match assocGet s.rawMessageByKey key with
      | none => Except.error getMediaNotFoundMsg
      | some msg =>
          let meta := (extractMediaMetaFromContent
            (normalizeMessageContent msg.message)).getD unknownMedia
          match downloadResult with
          | Except.error e => Except.error ("Failed to download media: " ++ e)
          | Except.ok len =>
              Except.ok { meta with fileLength := some (Int.ofNat len) }

/-- The `chatName` resolution of `listMessages`
(`this.chatStore.get(m.chatId)?.name || m.chatId.split("@")[0]`). -/
def toWhatsAppMessage (chatStore : List (String × ChatEntry))
    (m : StoredMessage) : WhatsAppMessage :=
  { id := m.id, chatId := m.chatId,
    chatName := jsStringOr ((assocGet chatStore m.chatId).map ChatEntry.name)
      (splitFirst m.chatId '@'),
    sender := m.sender, senderName := m.senderName, timestamp := m.timestamp,
    text := m.text, isFromMe := m.isFromMe, isGroup := m.isGroup,
    type := m.type, media := m.media }

/-- `listMessages` (whatsapp-client.ts:697-712): read the chat's list (or
the flattened union), stable-sort ascending by timestamp, keep the trailing
`limit` entries, and resolve chat names.  Note: no `ensureConnected`
guard. -/
def listMessages (chatStore : List (String × ChatEntry)) (s : Stores)
    (chatId : Option String) (limit : Nat) : List WhatsAppMessage :=
  let normalized := chatId.map normalizeJid
  let messages :=
    match normalized with
    | some c => (assocGet s.messageStore c).getD []
    | none => flattenMessageStore s.messageStore
  let sortedAsc := List.insertionSort byTimestamp messages
  let tail := sortedAsc.drop (sortedAsc.length - limit)
  tail.map (toWhatsAppMessage chatStore)

/-- `listMessages` at the facade boundary: the source method performs no
connectivity check and its body cannot throw, so it always resolves. -/
def listMessagesOp (st : ClientState) (chatStore : List (String × ChatEntry))
    (s : Stores) (chatId : Option String) (limit : Nat) :
    Except String (List WhatsAppMessage) :=
  let keep := st
  match keep with
  | _ => Except.ok (listMessages chatStore s chatId limit)

/-- The fields of a `sock.contacts` record read by `getContactName`. -/
structure ContactFields where
  name : Option String
  notify : Option String
  verifiedName : Option String
deriving Repr, DecidableEq

/-- A truthy optional string (`""` is falsy). -/
def truthyOpt (o : Option String) : Option String :=
  match o with
  | some s => if s = "" then none else some s
  | none => none

/-- `getContactName` (whatsapp-client.ts:714-730): returns the input `jid`
when no socket exists; otherwise prefers the stored chat name (normalized
then raw id), then the socket's contact record, then a `+`-prefixed phone
fallback.  It never throws. -/
def getContactName (st : ClientState) (chatStore : List (String × ChatEntry))
    (socketContact : Option ContactFields) (jid : String) : String :=
  if !st.socketPresent then jid
  else
    let normalized := normalizeJid jid
    let fromStore :=
      match truthyOpt ((assocGet chatStore normalized).map ChatEntry.name) with
      | some n => some n
      | none => truthyOpt ((assocGet chatStore jid).map ChatEntry.name)
    match fromStore with
    | some n => n
    | none =>
        let contactName :=
          match socketContact with
          | none => none
          | some c =>
              match truthyOpt c.name with
              | some n => some n
              | none =>
                  match truthyOpt c.notify with
                  | some n => some n
                  | none => truthyOpt c.verifiedName
        match contactName with
        | some n => n
        | none => "+" ++ splitFirst (splitFirst normalized '@') ':'

/-- The fields of `sock.groupMetadata` read by `getGroupInfo`. -/
structure GroupMetadata where
  id : String
  subject : String
  desc : Option String
  participants : List (String × Option String)
  creation : Option Int
deriving Repr, DecidableEq

/-- `getGroupInfo`'s result shape (whatsapp-client.ts:743-749). -/
structure GroupInfo where
  id : String
  subject : String
  description : String
  participants : List (String × Bool)
  creation : Int
deriving Repr, DecidableEq

/-- Structural well-formedness of the message store, maintained by every
store operation: map keys are unique, and every message sits in the list
keyed by its own chat id. -/
def StoreWF (ms : List (String × List StoredMessage)) : Prop :=
  (ms.map Prod.fst).Nodup ∧ ∀ kv ∈ ms, ∀ m ∈ kv.2, m.chatId = kv.1

/-- `getGroupInfo` (whatsapp-client.ts:743-763); `metadata` is the oracle
for the awaited `sock.groupMetadata(normalizedId)`. -/
def getGroupInfo (st : ClientState)
    (metadata : Except String GroupMetadata) (groupId : String) :
    Except String GroupInfo :=
  match ensureConnected st with
  | Except.error e => Except.error e
  | Except.ok _ =>
      let normalizedId := normalizeJid groupId
      let keep := normalizedId
      match keep, metadata with
      | _, Except.error e => Except.error e
      | _, Except.ok md =>
          Except.ok
            { id := md.id, subject := md.subject,
              description := md.desc.getD "",
              participants := md.participants.map (fun p =>
                (p.1, p.2 = some "admin" ∨ p.2 = some "superadmin")),
              creation := md.creation.getD 0 }

/-! ## Theorems -/

/-! ### C9: the timestamp normalizer and the clock fallback -/

/-- C9 counterexample: `toUnixSeconds` is not independent of when it runs
on every plain-number input — on `NaN` (a JS value with
`typeof === "number"`) it falls through every conversion branch and returns
the current clock, so two evaluations at different times differ. -/
theorem toUnixSeconds_clock_dependent_on_nan :
    toUnixSeconds (WireValue.num JsNumber.nan) 1000 ≠
      toUnixSeconds (WireValue.num JsNumber.nan) 5000 := by
  decide

/-- C9 amended: on every input that converts without the clock fallback —
finite plain numbers, big integers, and long objects whose `toNumber()` or
`Number(toString())` conversion is finite — `toUnixSeconds` yields the same
canonical integer regardless of when it runs. -/
theorem toUnixSeconds_time_independent (value : WireValue)
    (h : convertsWithoutClock value = true) (t1 t2 : Nat) :
    toUnixSeconds value t1 = toUnixSeconds value t2 := by
  cases value with
  | num x => cases x <;> simp_all [convertsWithoutClock, JsNumber.isFinite, toUnixSeconds]
  | bigInt n => rfl
  | obj tn tsv =>
      cases tn with
      | some n =>
          cases n with
          | finite v => rfl
          | nan =>
              cases tsv with
              | none => simp [convertsWithoutClock, JsNumber.isFinite] at h
              | some m =>
                  cases m <;>
                    simp_all [convertsWithoutClock, JsNumber.isFinite, toUnixSeconds]
          | posInf =>
              cases tsv with
              | none => simp [convertsWithoutClock, JsNumber.isFinite] at h
              | some m =>
                  cases m <;>
                    simp_all [convertsWithoutClock, JsNumber.isFinite, toUnixSeconds]
          | negInf =>
              cases tsv with
              | none => simp [convertsWithoutClock, JsNumber.isFinite] at h
              | some m =>
                  cases m <;>
                    simp_all [convertsWithoutClock, JsNumber.isFinite, toUnixSeconds]
      | none =>
          cases tsv with
          | none => simp [convertsWithoutClock] at h
          | some m =>
              cases m <;>
                simp_all [convertsWithoutClock, JsNumber.isFinite, toUnixSeconds]
  | nullish => simp [convertsWithoutClock] at h
  | str s => simp [convertsWithoutClock] at h
  | boolean b => simp [convertsWithoutClock] at h

/-- C9 witness: a big integer converts without the clock, and the two
evaluations at widely different times agree. -/
theorem toUnixSeconds_time_independent_witness :
    convertsWithoutClock (WireValue.bigInt 42) = true ∧
      toUnixSeconds (WireValue.bigInt 42) 0 =
        toUnixSeconds (WireValue.bigInt 42) 987654321 :=
  ⟨by decide, toUnixSeconds_time_independent (WireValue.bigInt 42) (by decide) 0 987654321⟩

/-! ### C10: `normalizeJid` -/

/-- C10 counterexample: `normalizeJid` is not idempotent on every input.
The anchored case-insensitive replace strips only one `whatsapp:` prefix,
so an input carrying the prefix twice loses one prefix per application. -/
theorem normalizeJid_not_idempotent :
    normalizeJid (normalizeJid "whatsapp:whatsapp:a@b") ≠
      normalizeJid "whatsapp:whatsapp:a@b" := by
  decide

theorem stripWhatsappPrefix_of_not_match {l : List Char}
    (h : ciPrefixMatches whatsappPrefix l = false) :
    stripWhatsappPrefix l = l := by
  simp [stripWhatsappPrefix, h]

theorem toLower_eq_self_of_digit (c : Char) (h : c.isDigit = true) :
    Char.toLower c = c := by
  have h' : c.val ≥ 48 ∧ c.val ≤ 57 := by
    simpa [Char.isDigit] using h
  have hle : Char.toNat c ≤ 57 := UInt32.toNat_le_of_le (by decide) h'.2
  have hcond : ¬(Char.toNat c ≥ 65 ∧ Char.toNat c ≤ 90) := by omega
  simp [Char.toLower, hcond]

theorem ciPrefixMatches_digit_head (c : Char) (h : c.isDigit = true)
    (rest : List Char) :
    ciPrefixMatches whatsappPrefix (c :: rest) = false := by
  have hne : c ≠ 'w' := by
    rintro rfl
    exact absurd h (by decide)
  have hlow : Char.toLower c = c := toLower_eq_self_of_digit c h
  simp [whatsappPrefix, ciPrefixMatches, hlow, hne]

theorem char_contains_iff (l : List Char) (c : Char) :
    l.contains c = true ↔ c ∈ l := by
  show List.elem c l = true ↔ c ∈ l
  exact List.elem_iff

theorem normalizeJidChars_props (l : List Char)
    (h : ciPrefixMatches whatsappPrefix (stripWhatsappPrefix l) = false) :
    normalizeJidChars (normalizeJidChars l) = normalizeJidChars l ∧
    ((normalizeJidChars l).contains '@' = true ∨
      (normalizeJidChars l).filter Char.isDigit = []) := by
  have hstrip : stripWhatsappPrefix (stripWhatsappPrefix l) = stripWhatsappPrefix l :=
    stripWhatsappPrefix_of_not_match h
  cases hat : (stripWhatsappPrefix l).contains '@' with
  | true =>
      have hm : '@' ∈ stripWhatsappPrefix l := (char_contains_iff _ '@').mp hat
      have h1 : normalizeJidChars l = stripWhatsappPrefix l := by
        unfold normalizeJidChars
        simp [hm]
      constructor
      · rw [h1]
        unfold normalizeJidChars
        simp [hstrip, hm]
      · exact Or.inl (by rw [h1]; exact hat)
  | false =>
      have hm : '@' ∉ stripWhatsappPrefix l := by
        intro hx
        have hc := (char_contains_iff (stripWhatsappPrefix l) '@').mpr hx
        rw [hat] at hc
        exact Bool.noConfusion hc
      cases hfil : (stripWhatsappPrefix l).filter Char.isDigit with
      | nil =>
          have h1 : normalizeJidChars l = stripWhatsappPrefix l := by
            unfold normalizeJidChars
            simp [hm, hfil]
          constructor
          · rw [h1]
            unfold normalizeJidChars
            simp [hstrip, hm, hfil]
          · exact Or.inr (by rw [h1]; exact hfil)
      | cons c cs =>
          have hcdig : c.isDigit = true := by
            have hmem : c ∈ (stripWhatsappPrefix l).filter Char.isDigit := by
              rw [hfil]; exact List.mem_cons_self c cs
            exact (List.mem_filter.mp hmem).2
          have h1 : normalizeJidChars l = c :: (cs ++ "@s.whatsapp.net".data) := by
            unfold normalizeJidChars
            simp [hm, hfil]
          have hstrip2 : stripWhatsappPrefix (c :: (cs ++ "@s.whatsapp.net".data)) =
              c :: (cs ++ "@s.whatsapp.net".data) :=
            stripWhatsappPrefix_of_not_match (ciPrefixMatches_digit_head c hcdig _)
          have hm2 : '@' ∈ c :: (cs ++ "@s.whatsapp.net".data) :=
            List.mem_cons_of_mem c (List.mem_append_right cs (by decide))
          have hat2 : (c :: (cs ++ "@s.whatsapp.net".data)).contains '@' = true :=
            (char_contains_iff _ '@').mpr hm2
          constructor
          · rw [h1]
            unfold normalizeJidChars
            simp [hstrip2, hm2]
          · exact Or.inl (by rw [h1]; exact hat2)

/-- C10 amended: on every input whose prefix-stripped form does not itself
start (case-insensitively) with `whatsapp:`, `normalizeJid` is idempotent;
and for every input, the output either contains `@` or contains no digit
characters (the digit-extraction branch fired only when some digit was
present). -/
theorem normalizeJid_props (s : String)
    (h : ciPrefixMatches whatsappPrefix (stripWhatsappPrefix s.data) = false) :
    normalizeJid (normalizeJid s) = normalizeJid s ∧
    ((normalizeJid s).data.contains '@' = true ∨
      (normalizeJid s).data.filter Char.isDigit = []) := by
  have hp := normalizeJidChars_props s.data h
  exact ⟨congrArg String.mk hp.1, hp.2⟩

/-- C10 witness: a digits-only input with one prefix satisfies the
hypothesis, normalizes idempotently, and its output contains `@`. -/
theorem normalizeJid_props_witness :
    ciPrefixMatches whatsappPrefix (stripWhatsappPrefix "whatsapp:49-170".data) = false ∧
    (normalizeJid (normalizeJid "whatsapp:49-170") = normalizeJid "whatsapp:49-170" ∧
      ((normalizeJid "whatsapp:49-170").data.contains '@' = true ∨
        (normalizeJid "whatsapp:49-170").data.filter Char.isDigit = [])) :=
  ⟨by decide, normalizeJid_props "whatsapp:49-170" (by decide)⟩

/-! ### C8: debounce coalescing -/

theorem scheduleSaveChatStore_armed_id (s : DebounceState)
    (h : s.timerArmed = true) : scheduleSaveChatStore s = s := by
  simp [scheduleSaveChatStore, h]

theorem scheduleSaveMessageStore_armed_id (s : DebounceState)
    (h : s.timerArmed = true) : scheduleSaveMessageStore true s = s := by
  simp [scheduleSaveMessageStore, h]

theorem debounce_iterate_eq_once {f : DebounceState → DebounceState}
    (hfix : ∀ s, s.timerArmed = true → f s = s) (st : DebounceState)
    (harm : (f st).timerArmed = true) :
    ∀ n, 1 ≤ n → f^[n] st = f st := by
  intro n hn
  induction n with
  | zero => omega
  | succ k ih =>
      by_cases hk : k = 0
      · subst hk
        simp
      · have hk1 : 1 ≤ k := by omega
        rw [Function.iterate_succ_apply', ih hk1, hfix _ harm]

/-- C8: for every `N ≥ 1`, `N` `schedule()` calls starting from an
unarmed scheduler leave exactly one armed timer (the same state a single
call produces), the timer firing then performs exactly one write, and a
`schedule()` call made while a timer is armed is a no-op — for both the
chat-store and the (persistence-enabled) message-store scheduler. -/
theorem schedule_debounce_coalesces (n : Nat) (hn : 1 ≤ n)
    (st : DebounceState) (h : st.timerArmed = false) :
    scheduleSaveChatStore^[n] st = scheduleSaveChatStore st ∧
    (debounceTimerFires (scheduleSaveChatStore^[n] st)).writeCount =
      st.writeCount + 1 ∧
    (∀ s : DebounceState, s.timerArmed = true → scheduleSaveChatStore s = s) ∧
    (scheduleSaveMessageStore true)^[n] st = scheduleSaveMessageStore true st ∧
    (debounceTimerFires ((scheduleSaveMessageStore true)^[n] st)).writeCount =
      st.writeCount + 1 ∧
    (∀ s : DebounceState, s.timerArmed = true →
      scheduleSaveMessageStore true s = s) := by
  have harm1 : (scheduleSaveChatStore st).timerArmed = true := by
    simp [scheduleSaveChatStore, h]
  have harm2 : (scheduleSaveMessageStore true st).timerArmed = true := by
    simp [scheduleSaveMessageStore, h]
  have hit1 := debounce_iterate_eq_once scheduleSaveChatStore_armed_id st harm1 n hn
  have hit2 := debounce_iterate_eq_once scheduleSaveMessageStore_armed_id st harm2 n hn
  refine ⟨hit1, ?_, scheduleSaveChatStore_armed_id, hit2, ?_,
    scheduleSaveMessageStore_armed_id⟩
  · rw [hit1]
    simp [scheduleSaveChatStore, h, debounceTimerFires]
  · rw [hit2]
    simp [scheduleSaveMessageStore, h, debounceTimerFires]

/-- C8 witness: three coalesced `schedule()` calls from an idle scheduler
with no completed writes produce exactly one write on fire. -/
theorem schedule_debounce_coalesces_witness :
    1 ≤ 3 ∧
    (scheduleSaveChatStore^[3] { timerArmed := false, writeCount := 0 } =
        scheduleSaveChatStore { timerArmed := false, writeCount := 0 } ∧
      (debounceTimerFires
        (scheduleSaveChatStore^[3] { timerArmed := false, writeCount := 0 })).writeCount =
        ({ timerArmed := false, writeCount := 0 } : DebounceState).writeCount + 1 ∧
      (∀ s : DebounceState, s.timerArmed = true → scheduleSaveChatStore s = s) ∧
      (scheduleSaveMessageStore true)^[3] { timerArmed := false, writeCount := 0 } =
        scheduleSaveMessageStore true { timerArmed := false, writeCount := 0 } ∧
      (debounceTimerFires
        ((scheduleSaveMessageStore true)^[3]
          { timerArmed := false, writeCount := 0 })).writeCount =
        ({ timerArmed := false, writeCount := 0 } : DebounceState).writeCount + 1 ∧
      (∀ s : DebounceState, s.timerArmed = true →
        scheduleSaveMessageStore true s = s)) :=
  ⟨by decide,
    schedule_debounce_coalesces 3 (by decide) { timerArmed := false, writeCount := 0 } rfl⟩

/-! ### C4: generation-based staleness -/

/-- C4: a close event tagged with a generation older than the current one
is discarded: the client state (including the status snapshot) is
unchanged and no reconnect is scheduled. -/
theorem stale_close_ignored (g1 : Nat) (statusCode : Option Int)
    (st : ClientState) (h : g1 < st.socketGeneration) :
    handleConnectionClose g1 statusCode st = (st, CloseAction.noAction) := by
  have hne : g1 ≠ st.socketGeneration := Nat.ne_of_lt h
  simp [handleConnectionClose, hne]

/-- C4 witness: a generation-1 close with a retryable code arriving while
generation 2 is current changes nothing and schedules nothing. -/
theorem stale_close_ignored_witness :
    1 < ({ socketPresent := true,
           status := { connected := true, qrCode := none,
                       phoneNumber := some "491700000000", error := none },
           qrDisplayed := false, reconnectCount440 := 0,
           socketGeneration := 2 } : ClientState).socketGeneration ∧
    handleConnectionClose 1 (some 428)
        { socketPresent := true,
          status := { connected := true, qrCode := none,
                      phoneNumber := some "491700000000", error := none },
          qrDisplayed := false, reconnectCount440 := 0, socketGeneration := 2 } =
      ({ socketPresent := true,
         status := { connected := true, qrCode := none,
                     phoneNumber := some "491700000000", error := none },
         qrDisplayed := false, reconnectCount440 := 0, socketGeneration := 2 },
        CloseAction.noAction) :=
  ⟨by decide,
    stale_close_ignored 1 (some 428)
      { socketPresent := true,
        status := { connected := true, qrCode := none,
                    phoneNumber := some "491700000000", error := none },
        qrDisplayed := false, reconnectCount440 := 0, socketGeneration := 2 }
      (by decide)⟩

/-! ### C5: conflict-loop guard and fixed backoff -/

theorem handleClose_440_current (st : ClientState) :
    handleConnectionClose st.socketGeneration (some 440) st =
      if st.reconnectCount440 + 1 > 2 then
        ({ st with reconnectCount440 := st.reconnectCount440 + 1,
                   status := conflictErrorStatus }, CloseAction.noAction)
      else
        ({ st with reconnectCount440 := st.reconnectCount440 + 1,
                   qrDisplayed := false }, CloseAction.reconnect 5000) := by
  simp only [handleConnectionClose, conflictStatusCode, loggedOutStatusCode]
  norm_num

theorem handleClose_other_current (st : ClientState) (code : Option Int)
    (hlo : code ≠ some loggedOutStatusCode) (hcf : code ≠ some conflictStatusCode) :
    handleConnectionClose st.socketGeneration code st =
      ({ st with qrDisplayed := false }, CloseAction.reconnect 2000) := by
  simp [handleConnectionClose, hlo, hcf]

/-- C5: starting from a zero conflict counter on the current generation,
the first two conflict (440) closes schedule reconnects with the fixed 5
second delay, the third publishes the terminal conflict error status and
schedules no reconnect; and any other retryable close (neither logged-out
401 nor conflict 440) schedules a reconnect with the fixed 2 second
delay. -/
theorem conflict_loop_guard (st : ClientState) (code : Option Int)
    (h0 : st.reconnectCount440 = 0) (hlo : code ≠ some loggedOutStatusCode)
    (hcf : code ≠ some conflictStatusCode) :
    (handleConnectionClose st.socketGeneration (some 440) st).2 =
      CloseAction.reconnect 5000 ∧
    (handleConnectionClose
        ((handleConnectionClose st.socketGeneration (some 440) st).1.socketGeneration)
        (some 440)
        (handleConnectionClose st.socketGeneration (some 440) st).1).2 =
      CloseAction.reconnect 5000 ∧
    (handleConnectionClose
        ((handleConnectionClose
            ((handleConnectionClose st.socketGeneration (some 440) st).1.socketGeneration)
            (some 440)
            (handleConnectionClose st.socketGeneration (some 440) st).1).1.socketGeneration)
        (some 440)
        (handleConnectionClose
            ((handleConnectionClose st.socketGeneration (some 440) st).1.socketGeneration)
            (some 440)
            (handleConnectionClose st.socketGeneration (some 440) st).1).1) =
      ({ st with reconnectCount440 := 3, qrDisplayed := false,
                 status := conflictErrorStatus }, CloseAction.noAction) ∧
    (handleConnectionClose st.socketGeneration code st).2 =
      CloseAction.reconnect 2000 := by
  have h1 : handleConnectionClose st.socketGeneration (some 440) st =
      ({ st with reconnectCount440 := 1, qrDisplayed := false },
        CloseAction.reconnect 5000) := by
    rw [handleClose_440_current]
    simp [h0]
  rw [h1]
  have h2 : handleConnectionClose st.socketGeneration (some 440)
      ({ st with reconnectCount440 := 1, qrDisplayed := false }) =
      ({ st with reconnectCount440 := 2, qrDisplayed := false },
        CloseAction.reconnect 5000) := by
    have := handleClose_440_current
      ({ st with reconnectCount440 := 1, qrDisplayed := false })
    simp at this
    simpa using this
  rw [h2]
  have h3 : handleConnectionClose st.socketGeneration (some 440)
      ({ st with reconnectCount440 := 2, qrDisplayed := false }) =
      ({ st with reconnectCount440 := 3, qrDisplayed := false,
                 status := conflictErrorStatus }, CloseAction.noAction) := by
    have := handleClose_440_current
      ({ st with reconnectCount440 := 2, qrDisplayed := false })
    simp at this
    simpa using this
  rw [h3]
  exact ⟨rfl, rfl, rfl, by rw [handleClose_other_current st code hlo hcf]⟩

/-- C5 witness: the three-conflict sequence and the 2-second ordinary
backoff, at a concrete connected state with a zero conflict counter and
close code 428 for the ordinary retryable close. -/
theorem conflict_loop_guard_witness :
    (handleConnectionClose
        ({ socketPresent := true,
           status := { connected := true, qrCode := none,
                       phoneNumber := none, error := none },
           qrDisplayed := false, reconnectCount440 := 0,
           socketGeneration := 1 } : ClientState).socketGeneration (some 440)
        { socketPresent := true,
          status := { connected := true, qrCode := none,
                      phoneNumber := none, error := none },
          qrDisplayed := false, reconnectCount440 := 0,
          socketGeneration := 1 }).2 = CloseAction.reconnect 5000 ∧
    (handleConnectionClose
        ({ socketPresent := true,
           status := { connected := true, qrCode := none,
                       phoneNumber := none, error := none },
           qrDisplayed := false, reconnectCount440 := 0,
           socketGeneration := 1 } : ClientState).socketGeneration (some 428)
        { socketPresent := true,
          status := { connected := true, qrCode := none,
                      phoneNumber := none, error := none },
          qrDisplayed := false, reconnectCount440 := 0,
          socketGeneration := 1 }).2 = CloseAction.reconnect 2000 :=
  ⟨(conflict_loop_guard
      { socketPresent := true,
        status := { connected := true, qrCode := none,
                    phoneNumber := none, error := none },
        qrDisplayed := false, reconnectCount440 := 0, socketGeneration := 1 }
      (some 428) rfl (by decide) (by decide)).1,
    (conflict_loop_guard
      { socketPresent := true,
        status := { connected := true, qrCode := none,
                    phoneNumber := none, error := none },
        qrDisplayed := false, reconnectCount440 := 0, socketGeneration := 1 }
      (some 428) rfl (by decide) (by decide)).2.2.2⟩

/-! ### C6: facade connectivity guards -/

/-- C6 counterexample: `listMessages` does not fail when the connection is
not established — on a disconnected client it simply serves (an empty
list) from the in-memory store.  (`getContactName` likewise returns the
input identifier instead of failing.) -/
theorem listMessages_ok_when_disconnected :
    isConnected
        { socketPresent := false,
          status := { connected := false, qrCode := none,
                      phoneNumber := none, error := none },
          qrDisplayed := false, reconnectCount440 := 0,
          socketGeneration := 1 } = false ∧
    listMessagesOp
        { socketPresent := false,
          status := { connected := false, qrCode := none,
                      phoneNumber := none, error := none },
          qrDisplayed := false, reconnectCount440 := 0,
          socketGeneration := 1 } [] emptyStores none 20 =
      Except.ok [] ∧
    getContactName
        { socketPresent := false,
          status := { connected := false, qrCode := none,
                      phoneNumber := none, error := none },
          qrDisplayed := false, reconnectCount440 := 0,
          socketGeneration := 1 } [] none "12345@s.whatsapp.net" =
      "12345@s.whatsapp.net" := by
  refine ⟨rfl, rfl, rfl⟩

/-- C6 amended: whenever the connection is not established (no socket, or
a socket still in the QR-pending/connecting phase with an unconnected
status), `getChats`, `sendMessage`, `sendFile`, `downloadMedia`,
`getMedia` and `getGroupInfo` all fail with the descriptive not-connected
error; `listMessages` succeeds and serves from the in-memory store,
`getContactName` succeeds and — when no socket is present — returns the
input identifier, and `getStatus` succeeds and reports the current
snapshot. -/
theorem facade_not_connected (st : ClientState) (h : isConnected st = false)
    (chatStore : List (String × ChatEntry)) (s : Stores)
    (fallbackGroups : Except String (List (String × Option String)))
    (transportSend : Except String SendResult) (fileAccess : Except String Unit)
    (downloadResult : Except String Nat) (metadata : Except String GroupMetadata)
    (socketContact : Option ContactFields) (nowMs limit : Nat)
    (chatId messageId text filePath jid : String) (listChatId : Option String) :
    getChats st chatStore fallbackGroups limit = Except.error notConnectedMsg ∧
    sendMessage st transportSend nowMs chatId text = Except.error notConnectedMsg ∧
    sendFile st fileAccess transportSend nowMs chatId filePath =
      Except.error notConnectedMsg ∧
    downloadMedia st s downloadResult chatId messageId =
      Except.error notConnectedMsg ∧
    getMedia st s downloadResult chatId messageId = Except.error notConnectedMsg ∧
    getGroupInfo st metadata chatId = Except.error notConnectedMsg ∧
    listMessagesOp st chatStore s listChatId limit =
      Except.ok (listMessages chatStore s listChatId limit) ∧
    (st.socketPresent = false →
      getContactName st chatStore socketContact jid = jid) ∧
    getStatus st = st.status := by
  have he : ensureConnected st = Except.error notConnectedMsg := by
    simp [ensureConnected, h]
  refine ⟨?_, ?_, ?_, ?_, ?_, ?_, rfl, ?_, rfl⟩
  · simp [getChats, he]
  · simp [sendMessage, he]
  · simp [sendFile, he]
  · simp [downloadMedia, he]
  · simp [getMedia, he]
  · simp [getGroupInfo, he]
  · intro hsp
    simp [getContactName, hsp]

/-- C6 witness: the guarded operations fail on a concrete not-established
client that still has a socket (QR-pending phase), the unguarded ones
succeed there, and `getContactName` returns the input identifier on a
concrete client with no socket. -/
theorem facade_not_connected_witness :
    (getChats
        { socketPresent := true,
          status := { connected := false, qrCode := some "QRDATA",
                      phoneNumber := none, error := none },
          qrDisplayed := true, reconnectCount440 := 0, socketGeneration := 1 }
        [] (Except.ok []) 20 = Except.error notConnectedMsg ∧
      sendMessage
        { socketPresent := true,
          status := { connected := false, qrCode := some "QRDATA",
                      phoneNumber := none, error := none },
          qrDisplayed := true, reconnectCount440 := 0, socketGeneration := 1 }
        (Except.ok { keyId := some "A1", messageTimestamp := WireValue.bigInt 7 })
        0 "12345" "hi" = Except.error notConnectedMsg ∧
      sendFile
        { socketPresent := true,
          status := { connected := false, qrCode := some "QRDATA",
                      phoneNumber := none, error := none },
          qrDisplayed := true, reconnectCount440 := 0, socketGeneration := 1 }
        (Except.ok ()) (Except.ok { keyId := some "A1", messageTimestamp := WireValue.bigInt 7 })
        0 "12345" "/tmp/f.pdf" = Except.error notConnectedMsg ∧
      downloadMedia
        { socketPresent := true,
          status := { connected := false, qrCode := some "QRDATA",
                      phoneNumber := none, error := none },
          qrDisplayed := true, reconnectCount440 := 0, socketGeneration := 1 }
        emptyStores (Except.ok 0) "12345" "MSG1" = Except.error notConnectedMsg ∧
      getMedia
        { socketPresent := true,
          status := { connected := false, qrCode := some "QRDATA",
                      phoneNumber := none, error := none },
          qrDisplayed := true, reconnectCount440 := 0, socketGeneration := 1 }
        emptyStores (Except.ok 0) "12345" "MSG1" = Except.error notConnectedMsg ∧
      getGroupInfo
        { socketPresent := true,
          status := { connected := false, qrCode := some "QRDATA",
                      phoneNumber := none, error := none },
          qrDisplayed := true, reconnectCount440 := 0, socketGeneration := 1 }
        (Except.ok { id := "g@g.us", subject := "G", desc := none,
                     participants := [], creation := none }) "g@g.us" =
        Except.error notConnectedMsg ∧
      listMessagesOp
        { socketPresent := true,
          status := { connected := false, qrCode := some "QRDATA",
                      phoneNumber := none, error := none },
          qrDisplayed := true, reconnectCount440 := 0, socketGeneration := 1 }
        [] emptyStores none 20 =
        Except.ok (listMessages [] emptyStores none 20) ∧
      (({ socketPresent := true,
          status := { connected := false, qrCode := some "QRDATA",
                      phoneNumber := none, error := none },
          qrDisplayed := true, reconnectCount440 := 0,
          socketGeneration := 1 } : ClientState).socketPresent = false →
        getContactName
          { socketPresent := true,
            status := { connected := false, qrCode := some "QRDATA",
                        phoneNumber := none, error := none },
            qrDisplayed := true, reconnectCount440 := 0, socketGeneration := 1 }
          [] none "someone@s.whatsapp.net" = "someone@s.whatsapp.net") ∧
      getStatus
        { socketPresent := true,
          status := { connected := false, qrCode := some "QRDATA",
                      phoneNumber := none, error := none },
          qrDisplayed := true, reconnectCount440 := 0, socketGeneration := 1 } =
        ({ socketPresent := true,
           status := { connected := false, qrCode := some "QRDATA",
                       phoneNumber := none, error := none },
           qrDisplayed := true, reconnectCount440 := 0,
           socketGeneration := 1 } : ClientState).status) ∧
    getContactName
        { socketPresent := false,
          status := { connected := false, qrCode := none,
                      phoneNumber := none, error := none },
          qrDisplayed := false, reconnectCount440 := 0, socketGeneration := 1 }
        [] none "someone@s.whatsapp.net" = "someone@s.whatsapp.net" :=
  ⟨facade_not_connected
      { socketPresent := true,
        status := { connected := false, qrCode := some "QRDATA",
                    phoneNumber := none, error := none },
        qrDisplayed := true, reconnectCount440 := 0, socketGeneration := 1 }
      rfl [] emptyStores (Except.ok [])
      (Except.ok { keyId := some "A1", messageTimestamp := WireValue.bigInt 7 })
      (Except.ok ()) (Except.ok 0)
      (Except.ok { id := "g@g.us", subject := "G", desc := none,
                   participants := [], creation := none })
      none 0 20 "12345" "MSG1" "hi" "/tmp/f.pdf" "someone@s.whatsapp.net" none,
    (facade_not_connected
      { socketPresent := false,
        status := { connected := false, qrCode := none,
                    phoneNumber := none, error := none },
        qrDisplayed := false, reconnectCount440 := 0, socketGeneration := 1 }
      rfl [] emptyStores (Except.ok [])
      (Except.ok { keyId := some "A1", messageTimestamp := WireValue.bigInt 7 })
      (Except.ok ()) (Except.ok 0)
      (Except.ok { id := "g@g.us", subject := "G", desc := none,
                   participants := [], creation := none })
      none 0 20 "12345" "MSG1" "hi" "/tmp/f.pdf" "someone@s.whatsapp.net"
      none).2.2.2.2.2.2.2.1 rfl⟩

/-! ### C3: `listMessages` returns the newest `limit` entries ascending -/

/-- C3: for every chat and every limit, `listMessages` returns exactly
`min limit n` entries (`n` the chat's retained count, so at most `limit`),
sorted ascending by timestamp, and they are the entries with the largest
timestamps: the retained list splits (as a permutation, tie order decided
by the stable sort) into the returned entries and dropped entries whose
timestamps are all at most every returned timestamp. -/
theorem listMessages_spec (chatStore : List (String × ChatEntry)) (s : Stores)
    (chatId : String) (limit : Nat) :
    (listMessages chatStore s (some chatId) limit).length ≤ limit ∧
    (listMessages chatStore s (some chatId) limit).length =
      min limit ((assocGet s.messageStore (normalizeJid chatId)).getD []).length ∧
    List.Pairwise (fun a b => a.timestamp ≤ b.timestamp)
      (listMessages chatStore s (some chatId) limit) ∧
    ∃ dropped kept : List StoredMessage,
      (dropped ++ kept).Perm ((assocGet s.messageStore (normalizeJid chatId)).getD []) ∧
      listMessages chatStore s (some chatId) limit =
        kept.map (toWhatsAppMessage chatStore) ∧
      ∀ x ∈ dropped, ∀ y ∈ kept, x.timestamp ≤ y.timestamp := by
  have hlist : listMessages chatStore s (some chatId) limit =
      ((List.insertionSort byTimestamp
          ((assocGet s.messageStore (normalizeJid chatId)).getD [])).drop
        ((List.insertionSort byTimestamp
          ((assocGet s.messageStore (normalizeJid chatId)).getD [])).length - limit)).map
        (toWhatsAppMessage chatStore) := rfl
  have hperm : (List.insertionSort byTimestamp
      ((assocGet s.messageStore (normalizeJid chatId)).getD [])).Perm
      ((assocGet s.messageStore (normalizeJid chatId)).getD []) :=
    List.perm_insertionSort byTimestamp _
  have hsorted : List.Pairwise byTimestamp
      (List.insertionSort byTimestamp
        ((assocGet s.messageStore (normalizeJid chatId)).getD [])) :=
    List.sorted_insertionSort byTimestamp _
  have hlen := hperm.length_eq
  refine ⟨?_, ?_, ?_, ?_⟩
  · rw [hlist, List.length_map, List.length_drop]
    omega
  · rw [hlist, List.length_map, List.length_drop, hlen]
    omega
  · rw [hlist]
    rw [List.pairwise_map]
    have hdrop : List.Pairwise byTimestamp
        ((List.insertionSort byTimestamp
          ((assocGet s.messageStore (normalizeJid chatId)).getD [])).drop
          ((List.insertionSort byTimestamp
            ((assocGet s.messageStore (normalizeJid chatId)).getD [])).length - limit)) :=
      hsorted.sublist (List.drop_sublist _ _)
    exact hdrop
  · refine ⟨(List.insertionSort byTimestamp
        ((assocGet s.messageStore (normalizeJid chatId)).getD [])).take
        ((List.insertionSort byTimestamp
          ((assocGet s.messageStore (normalizeJid chatId)).getD [])).length - limit),
      (List.insertionSort byTimestamp
        ((assocGet s.messageStore (normalizeJid chatId)).getD [])).drop
        ((List.insertionSort byTimestamp
          ((assocGet s.messageStore (normalizeJid chatId)).getD [])).length - limit),
      ?_, hlist, ?_⟩
    · rw [List.take_append_drop]
      exact hperm
    · have hsplit := hsorted
      rw [← List.take_append_drop
        ((List.insertionSort byTimestamp
          ((assocGet s.messageStore (normalizeJid chatId)).getD [])).length - limit)
        (List.insertionSort byTimestamp
          ((assocGet s.messageStore (normalizeJid chatId)).getD []))] at hsplit
      exact (List.pairwise_append.mp hsplit).2.2

/-- C3 witness: the specification instantiated at a disconnected empty
store and a concrete chat and limit. -/
theorem listMessages_spec_witness :
    (listMessages [] emptyStores (some "12345") 5).length ≤ 5 ∧
    (listMessages [] emptyStores (some "12345") 5).length =
      min 5 ((assocGet emptyStores.messageStore (normalizeJid "12345")).getD []).length ∧
    List.Pairwise (fun a b => a.timestamp ≤ b.timestamp)
      (listMessages [] emptyStores (some "12345") 5) ∧
    ∃ dropped kept : List StoredMessage,
      (dropped ++ kept).Perm
        ((assocGet emptyStores.messageStore (normalizeJid "12345")).getD []) ∧
      listMessages [] emptyStores (some "12345") 5 =
        kept.map (toWhatsAppMessage []) ∧
      ∀ x ∈ dropped, ∀ y ∈ kept, x.timestamp ≤ y.timestamp :=
  listMessages_spec [] emptyStores "12345" 5

/-! ### Store toolkit: association lists, flattening, counting -/

theorem assocGet_set_self {β : Type} (m : List (String × β)) (k : String) (v : β) :
    assocGet (assocSet m k v) k = some v := by
  induction m with
  | nil => simp [assocSet, assocGet]
  | cons kv rest ih =>
      obtain ⟨k', w⟩ := kv
      by_cases hk : k' = k
      · simp [assocSet, hk, assocGet]
      · simp [assocSet, hk, assocGet, ih]

theorem assocGet_set_ne {β : Type} (m : List (String × β)) (k k' : String)
    (v : β) (h : k ≠ k') :
    assocGet (assocSet m k v) k' = assocGet m k' := by
  induction m with
  | nil => simp [assocSet, assocGet, h]
  | cons kv rest ih =>
      obtain ⟨k0, w⟩ := kv
      by_cases hk : k0 = k
      · subst hk
        simp [assocSet, assocGet, h]
      · simp [assocSet, hk, assocGet, ih]

theorem mem_assocSet {β : Type} (m : List (String × β)) (k : String) (v : β)
    (kv' : String × β) : kv' ∈ assocSet m k v → kv' = (k, v) ∨ kv' ∈ m := by
  induction m with
  | nil =>
      intro h
      simp only [assocSet] at h
      rcases List.mem_cons.mp h with he | hn
      · exact Or.inl he
      · exact absurd hn (List.not_mem_nil _)
  | cons kv rest ih =>
      intro h
      obtain ⟨k0, w⟩ := kv
      by_cases hk : k0 = k
      · subst hk
        have hset : assocSet ((k0, w) :: rest) k0 v = (k0, v) :: rest := by
          simp [assocSet]
        rw [hset] at h
        rcases List.mem_cons.mp h with he | hm
        · exact Or.inl he
        · exact Or.inr (List.mem_cons_of_mem _ hm)
      · have hset : assocSet ((k0, w) :: rest) k v = (k0, w) :: assocSet rest k v := by
          simp [assocSet, hk]
        rw [hset] at h
        rcases List.mem_cons.mp h with he | hm
        · exact Or.inr (by rw [he]; exact List.mem_cons_self _ _)
        · rcases ih hm with h' | h'
          · exact Or.inl h'
          · exact Or.inr (List.mem_cons_of_mem _ h')

theorem assocKeys_set {β : Type} (m : List (String × β)) (k : String) (v : β) :
    assocKeys (assocSet m k v) =
      if assocHas m k = true then assocKeys m else assocKeys m ++ [k] := by
  induction m with
  | nil => simp [assocSet, assocKeys, assocHas, assocGet]
  | cons kv rest ih =>
      obtain ⟨k0, w⟩ := kv
      by_cases hk : k0 = k
      · subst hk
        simp [assocSet, assocKeys, assocHas, assocGet]
      · have hset : assocSet ((k0, w) :: rest) k v = (k0, w) :: assocSet rest k v := by
          simp [assocSet, hk]
        have hhas : assocHas ((k0, w) :: rest) k = assocHas rest k := by
          simp [assocHas, assocGet, hk]
        have hkeys : ∀ (kv0 : String × β) (l : List (String × β)),
            assocKeys (kv0 :: l) = kv0.1 :: assocKeys l := fun _ _ => rfl
        rw [hset, hkeys, ih, hhas, hkeys]
        by_cases hh : assocHas rest k = true
        · simp [hh]
        · simp [hh]

theorem assocGet_eq_none_of_not_mem {β : Type} (m : List (String × β))
    (k : String) : k ∉ assocKeys m → assocGet m k = none := by
  induction m with
  | nil => intro _; rfl
  | cons kv rest ih =>
      intro h
      obtain ⟨k0, w⟩ := kv
      simp only [assocKeys, List.map_cons, List.mem_cons] at h
      push_neg at h
      simp only [assocGet, if_neg (Ne.symm h.1)]
      exact ih h.2

theorem not_mem_keys_of_assocGet_eq_none {β : Type} (m : List (String × β))
    (k : String) : assocGet m k = none → k ∉ assocKeys m := by
  induction m with
  | nil => intro _; simp [assocKeys]
  | cons kv rest ih =>
      intro h
      obtain ⟨k0, w⟩ := kv
      by_cases hk : k0 = k
      · simp [assocGet, hk] at h
      · simp only [assocGet, if_neg hk] at h
        simp only [assocKeys, List.map_cons, List.mem_cons]
        push_neg
        exact ⟨fun he => hk he.symm, ih h⟩

theorem nodup_keys_assocSet {β : Type} (m : List (String × β)) (k : String)
    (v : β) (h : (assocKeys m).Nodup) : (assocKeys (assocSet m k v)).Nodup := by
  rw [assocKeys_set]
  by_cases hh : assocHas m k = true
  · simpa [hh] using h
  · have hnone : assocGet m k = none := by
      have hs : ¬(assocGet m k).isSome = true := hh
      exact Option.not_isSome_iff_eq_none.mp hs
    have hk : k ∉ assocKeys m := not_mem_keys_of_assocGet_eq_none m k hnone
    simp only [hh, if_false]
    simpa [List.nodup_append] using ⟨h, hk⟩

theorem assocGet_of_mem_nodup {β : Type} {m : List (String × β)}
    (h : (assocKeys m).Nodup) {kv : String × β} (hm : kv ∈ m) :
    assocGet m kv.1 = some kv.2 := by
  induction m with
  | nil => cases hm
  | cons kv0 rest ih =>
      obtain ⟨k0, w⟩ := kv0
      simp only [assocKeys, List.map_cons, List.nodup_cons] at h
      rcases List.mem_cons.mp hm with he | hmem
      · subst he
        simp [assocGet]
      · have hne : k0 ≠ kv.1 := by
          intro hx
          exact h.1 (hx ▸ (List.mem_map.mpr ⟨kv, hmem, rfl⟩))
        simp only [assocGet, if_neg hne]
        exact ih h.2 hmem

theorem flattenMessageStore_go (ms : List (String × List StoredMessage))
    (acc : List StoredMessage) :
    ms.foldl (fun all kv => all ++ kv.2) acc = acc ++ flattenMessageStore ms := by
  induction ms generalizing acc with
  | nil => simp [flattenMessageStore]
  | cons kv rest ih =>
      show rest.foldl _ (acc ++ kv.2) = acc ++ flattenMessageStore (kv :: rest)
      have hc : flattenMessageStore (kv :: rest) = kv.2 ++ flattenMessageStore rest := by
        show rest.foldl _ ([] ++ kv.2) = _
        rw [ih ([] ++ kv.2)]
        simp
      rw [ih (acc ++ kv.2), hc, List.append_assoc]

theorem flattenMessageStore_cons (kv : String × List StoredMessage)
    (rest : List (String × List StoredMessage)) :
    flattenMessageStore (kv :: rest) = kv.2 ++ flattenMessageStore rest := by
  show rest.foldl _ ([] ++ kv.2) = _
  rw [flattenMessageStore_go rest ([] ++ kv.2)]
  simp

theorem countMessages_go (ms : List (String × List StoredMessage)) (n : Nat) :
    ms.foldl (fun n kv => n + kv.2.length) n = n + countMessages ms := by
  induction ms generalizing n with
  | nil => simp [countMessages]
  | cons kv rest ih =>
      show rest.foldl _ (n + kv.2.length) = n + countMessages (kv :: rest)
      have hc : countMessages (kv :: rest) = kv.2.length + countMessages rest := by
        show rest.foldl _ (0 + kv.2.length) = _
        rw [ih (0 + kv.2.length)]
        omega
      rw [ih (n + kv.2.length), hc]
      omega

theorem countMessages_eq_length_flatten (ms : List (String × List StoredMessage)) :
    countMessages ms = (flattenMessageStore ms).length := by
  induction ms with
  | nil => rfl
  | cons kv rest ih =>
      have h1 : countMessages (kv :: rest) = kv.2.length + countMessages rest := by
        show rest.foldl _ (0 + kv.2.length) = _
        rw [countMessages_go rest (0 + kv.2.length)]
        omega
      rw [h1, flattenMessageStore_cons, List.length_append, ih]

theorem countP_flatten_assocSet (m : List (String × List StoredMessage))
    (k : String) (v : List StoredMessage) (q : StoredMessage → Bool) :
    (flattenMessageStore (assocSet m k v)).countP q +
        ((assocGet m k).getD []).countP q =
      (flattenMessageStore m).countP q + v.countP q := by
  induction m with
  | nil =>
      show (flattenMessageStore [(k, v)]).countP q + _ = _
      rw [flattenMessageStore_cons]
      simp [flattenMessageStore, assocGet]
  | cons kv rest ih =>
      obtain ⟨k0, w⟩ := kv
      by_cases hk : k0 = k
      · subst hk
        have hset : assocSet ((k0, w) :: rest) k0 v = (k0, v) :: rest := by
          simp [assocSet]
        have hget : assocGet ((k0, w) :: rest) k0 = some w := by
          simp [assocGet]
        rw [hset, hget, flattenMessageStore_cons, flattenMessageStore_cons]
        simp only [List.countP_append, Option.getD_some]
        omega
      · have hset : assocSet ((k0, w) :: rest) k v = (k0, w) :: assocSet rest k v := by
          simp [assocSet, hk]
        have hget : assocGet ((k0, w) :: rest) k = assocGet rest k := by
          simp [assocGet, hk]
        rw [hset, hget, flattenMessageStore_cons, flattenMessageStore_cons]
        simp only [List.countP_append]
        omega

theorem countP_flatten_rebuild_go (keep : List StoredMessage)
    (acc : List (String × List StoredMessage)) (q : StoredMessage → Bool) :
    (flattenMessageStore
        (keep.foldl (fun st m =>
          assocSet st m.chatId ((assocGet st m.chatId).getD [] ++ [m])) acc)).countP q =
      (flattenMessageStore acc).countP q + keep.countP q := by
  induction keep generalizing acc with
  | nil => simp
  | cons m rest ih =>
      show (flattenMessageStore (rest.foldl _
        (assocSet acc m.chatId ((assocGet acc m.chatId).getD [] ++ [m])))).countP q = _
      rw [ih]
      have hset := countP_flatten_assocSet acc m.chatId
        ((assocGet acc m.chatId).getD [] ++ [m]) q
      rw [List.countP_append] at hset
      rw [List.countP_cons]
      have : (List.countP q [m]) = if q m then 1 else 0 := by
        simp [List.countP_cons]
      rw [this] at hset
      omega

theorem countP_flatten_rebuild (keep : List StoredMessage)
    (q : StoredMessage → Bool) :
    (flattenMessageStore (rebuildFromList keep)).countP q = keep.countP q := by
  have := countP_flatten_rebuild_go keep [] q
  simpa [rebuildFromList, flattenMessageStore] using this

theorem keepNewest_countP_le (cap : Nat) (l : List StoredMessage)
    (q : StoredMessage → Bool) :
    (keepNewest cap l).countP q ≤ l.countP q := by
  unfold keepNewest
  calc ((List.insertionSort byTimestamp l).drop
          ((List.insertionSort byTimestamp l).length - cap)).countP q
      ≤ (List.insertionSort byTimestamp l).countP q :=
        (List.drop_sublist _ _).countP_le q
    _ = l.countP q := (List.perm_insertionSort byTimestamp l).countP_eq q

theorem pruneChatLists_countP_le (cap : Nat)
    (ms : List (String × List StoredMessage)) (q : StoredMessage → Bool) :
    (flattenMessageStore (pruneChatLists cap ms)).countP q ≤
      (flattenMessageStore ms).countP q := by
  induction ms with
  | nil => simp [pruneChatLists]
  | cons kv rest ih =>
      show (flattenMessageStore
        ((if kv.2.length ≤ cap then kv else (kv.1, keepNewest cap kv.2)) ::
          pruneChatLists cap rest)).countP q ≤ _
      rw [flattenMessageStore_cons, flattenMessageStore_cons, List.countP_append,
        List.countP_append]
      by_cases hlen : kv.2.length ≤ cap
      · simp only [if_pos hlen]
        omega
      · simp only [if_neg hlen]
        have := keepNewest_countP_le cap kv.2 q
        omega

theorem pruneMessageStore_countP_le (cfg : StoreConfig) (s : Stores)
    (q : StoredMessage → Bool) :
    (flattenMessageStore (pruneMessageStore cfg s).messageStore).countP q ≤
      (flattenMessageStore s.messageStore).countP q := by
  unfold pruneMessageStore
  by_cases hif : countMessages (pruneChatLists cfg.maxMessagesPerChat s.messageStore) ≤
      cfg.maxMessagesTotal
  · simp only [hif, if_true]
    exact pruneChatLists_countP_le _ _ q
  · simp only [hif, if_false]
    show (flattenMessageStore (rebuildFromList _)).countP q ≤ _
    rw [countP_flatten_rebuild]
    calc (((List.insertionSort byTimestamp
            (flattenMessageStore (pruneChatLists cfg.maxMessagesPerChat s.messageStore))).drop
          _)).countP q
        ≤ (List.insertionSort byTimestamp
            (flattenMessageStore (pruneChatLists cfg.maxMessagesPerChat s.messageStore))).countP q :=
          (List.drop_sublist _ _).countP_le q
      _ = (flattenMessageStore (pruneChatLists cfg.maxMessagesPerChat s.messageStore)).countP q :=
          (List.perm_insertionSort byTimestamp _).countP_eq q
      _ ≤ (flattenMessageStore s.messageStore).countP q :=
          pruneChatLists_countP_le _ _ q

theorem addToMessageStore_countP_le (cfg : StoreConfig) (nowMs : Nat)
    (msg : RawEvent) (s : Stores) (q : StoredMessage → Bool) :
    (flattenMessageStore (addToMessageStore cfg nowMs msg s).messageStore).countP q ≤
      (flattenMessageStore s.messageStore).countP q +
        (match eventKey msg with
         | none => 0
         | some k => if q (deriveStoredMessage nowMs msg k.1) then 1 else 0) := by
  cases hjid : msg.key.remoteJid with
  | none => simp [addToMessageStore, eventKey, hjid]
  | some chatId =>
      by_cases hempty : chatId = ""
      · simp [addToMessageStore, eventKey, hjid, hempty]
      · have hadd : addToMessageStore cfg nowMs msg s =
            pruneMessageStore cfg
              { messageStore := assocSet s.messageStore chatId
                  ((assocGet s.messageStore chatId).getD [] ++
                    [deriveStoredMessage nowMs msg chatId]),
                rawMessageByKey := assocSet s.rawMessageByKey
                  (chatId ++ ":" ++ (deriveStoredMessage nowMs msg chatId).id) msg } := by
          simp [addToMessageStore, hjid, hempty]
        have hek : eventKey msg = some (chatId, jsStringOr msg.key.id "unknown") := by
          simp [eventKey, hjid, hempty]
        rw [hadd, hek]
        have hp := pruneMessageStore_countP_le cfg
          { messageStore := assocSet s.messageStore chatId
              ((assocGet s.messageStore chatId).getD [] ++
                [deriveStoredMessage nowMs msg chatId]),
            rawMessageByKey := assocSet s.rawMessageByKey
              (chatId ++ ":" ++ (deriveStoredMessage nowMs msg chatId).id) msg } q
        have hset := countP_flatten_assocSet s.messageStore chatId
          ((assocGet s.messageStore chatId).getD [] ++
            [deriveStoredMessage nowMs msg chatId]) q
        rw [List.countP_append] at hset
        have hone : (List.countP q [deriveStoredMessage nowMs msg chatId]) =
            if q (deriveStoredMessage nowMs msg chatId) then 1 else 0 := by
          simp [List.countP_cons]
        rw [hone] at hset
        have hp2 : (flattenMessageStore
            (pruneMessageStore cfg
              { messageStore := assocSet s.messageStore chatId
                  ((assocGet s.messageStore chatId).getD [] ++
                    [deriveStoredMessage nowMs msg chatId]),
                rawMessageByKey := assocSet s.rawMessageByKey
                  (chatId ++ ":" ++ (deriveStoredMessage nowMs msg chatId).id)
                  msg }).messageStore).countP q ≤
            (flattenMessageStore (assocSet s.messageStore chatId
              ((assocGet s.messageStore chatId).getD [] ++
                [deriveStoredMessage nowMs msg chatId]))).countP q := hp
        show _ ≤ _ + (if q (deriveStoredMessage nowMs msg chatId) then 1 else 0)
        by_cases hq : q (deriveStoredMessage nowMs msg chatId) = true
        · rw [if_pos hq] at hset
          rw [if_pos hq]
          omega
        · rw [if_neg hq] at hset
          rw [if_neg hq]
          omega

theorem countP_eventKey_le_one (events : List (RawEvent × Nat))
    (hd : (events.filterMap (fun e => eventKey e.1)).Nodup) (p : String × String) :
    events.countP (fun e => decide (eventKey e.1 = some p)) ≤ 1 := by
  induction events with
  | nil => simp
  | cons e rest ih =>
      cases hk : eventKey e.1 with
      | none =>
          have hfm : List.filterMap (fun e => eventKey e.1) (e :: rest) =
              List.filterMap (fun e => eventKey e.1) rest := by
            rw [List.filterMap_cons]
            simp [hk]
          have hd' : (rest.filterMap (fun e => eventKey e.1)).Nodup := by
            rwa [hfm] at hd
          have hcons : List.countP (fun e => decide (eventKey e.1 = some p)) (e :: rest) =
              List.countP (fun e => decide (eventKey e.1 = some p)) rest := by
            rw [List.countP_cons]
            simp [hk]
          rw [hcons]
          exact ih hd'
      | some k =>
          have hfm : List.filterMap (fun e => eventKey e.1) (e :: rest) =
              k :: List.filterMap (fun e => eventKey e.1) rest := by
            rw [List.filterMap_cons]
            simp [hk]
          rw [hfm] at hd
          rw [List.nodup_cons] at hd
          rw [List.countP_cons]
          by_cases hkp : k = p
          · subst hkp
            have hz : rest.countP (fun e => decide (eventKey e.1 = some k)) = 0 := by
              rw [List.countP_eq_zero]
              intro e' he' hcon
              simp only [decide_eq_true_eq] at hcon
              exact hd.1 (List.mem_filterMap.mpr ⟨e', he', hcon⟩)
            have hstep : (if (fun e => decide (eventKey e.1 = some k)) e = true
                then 1 else 0) = 1 := by
              simp [hk]
            rw [hz, hstep]
          · have hrest := ih hd.2
            have hstep : (if (fun e => decide (eventKey e.1 = some p)) e = true
                then 1 else 0) = 0 := by
              simp [hk, hkp]
            rw [hstep]
            omega

theorem applyEvents_countP_le (cfg : StoreConfig)
    (events : List (RawEvent × Nat)) (s : Stores) (p : String × String) :
    (flattenMessageStore (applyEvents cfg events s).messageStore).countP
        (fun m => decide (m.chatId = p.1 ∧ m.id = p.2)) ≤
      (flattenMessageStore s.messageStore).countP
        (fun m => decide (m.chatId = p.1 ∧ m.id = p.2)) +
        events.countP (fun e => decide (eventKey e.1 = some p)) := by
  induction events generalizing s with
  | nil => simp [applyEvents]
  | cons e rest ih =>
      show (flattenMessageStore
        (applyEvents cfg rest (addToMessageStore cfg e.2 e.1 s)).messageStore).countP _ ≤ _
      have h1 := ih (addToMessageStore cfg e.2 e.1 s)
      have h2 := addToMessageStore_countP_le cfg e.2 e.1 s
        (fun m => decide (m.chatId = p.1 ∧ m.id = p.2))
      rw [List.countP_cons]
      cases hk : eventKey e.1 with
      | none =>
          simp only [hk] at h2
          have hG : (if decide ((none : Option (String × String)) = some p) = true
              then 1 else 0) = 0 := by simp
          omega
      | some k =>
          simp only [hk] at h2
          have hchat : (deriveStoredMessage e.2 e.1 k.1).chatId = k.1 := rfl
          have hid : (deriveStoredMessage e.2 e.1 k.1).id =
              jsStringOr e.1.key.id "unknown" := rfl
          have hkid : k.2 = jsStringOr e.1.key.id "unknown" := by
            unfold eventKey at hk
            cases hjid : e.1.key.remoteJid with
            | none => rw [hjid] at hk; exact absurd hk (by simp)
            | some c =>
                rw [hjid] at hk
                by_cases hc : c = ""
                · simp [hc] at hk
                · simp only [hc, if_false] at hk
                  cases hk
                  rfl
          by_cases hkp : k = p
          · have hG : (if decide ((some k : Option (String × String)) = some p) = true
                then 1 else 0) = 1 := by simp [hkp]
            have hH : (if decide ((deriveStoredMessage e.2 e.1 k.1).chatId = p.1 ∧
                (deriveStoredMessage e.2 e.1 k.1).id = p.2) = true then 1 else 0) ≤ 1 := by
              split <;> omega
            omega
          · have hG : (if decide ((some k : Option (String × String)) = some p) = true
                then 1 else 0) = 0 := by simp [hkp]
            have hne : ¬((deriveStoredMessage e.2 e.1 k.1).chatId = p.1 ∧
                (deriveStoredMessage e.2 e.1 k.1).id = p.2) := by
              intro hq
              apply hkp
              have hfst : k.1 = p.1 := by rw [← hchat]; exact hq.1
              have hsnd : k.2 = p.2 := by rw [hkid, ← hid]; exact hq.2
              exact Prod.ext hfst hsnd
            have hH : (if decide ((deriveStoredMessage e.2 e.1 k.1).chatId = p.1 ∧
                (deriveStoredMessage e.2 e.1 k.1).id = p.2) = true then 1 else 0) = 0 := by
              simp [hne]
            omega

/-! ### C2: retention bounds -/

theorem mem_of_assocGet {β : Type} (m : List (String × β)) (k : String) (v : β) :
    assocGet m k = some v → (k, v) ∈ m := by
  induction m with
  | nil => intro h; cases h
  | cons kv rest ih =>
      intro h
      obtain ⟨k0, w⟩ := kv
      by_cases hk : k0 = k
      · subst hk
        simp [assocGet] at h
        subst h
        exact List.mem_cons_self _ _
      · simp only [assocGet, if_neg hk] at h
        exact List.mem_cons_of_mem _ (ih h)

theorem keepNewest_length_le (cap : Nat) (l : List StoredMessage) :
    (keepNewest cap l).length ≤ cap := by
  show ((List.insertionSort byTimestamp l).drop
    ((List.insertionSort byTimestamp l).length - cap)).length ≤ cap
  rw [List.length_drop]
  omega

theorem keepNewest_subset (cap : Nat) (l : List StoredMessage)
    (m' : StoredMessage) : m' ∈ keepNewest cap l → m' ∈ l := by
  intro h
  have h1 : m' ∈ List.insertionSort byTimestamp l :=
    (List.drop_sublist _ _).subset h
  exact (List.perm_insertionSort byTimestamp l).subset h1

theorem pruneChatLists_length_le (cap : Nat)
    (ms : List (String × List StoredMessage)) :
    ∀ kv ∈ pruneChatLists cap ms, kv.2.length ≤ cap := by
  intro kv hkv
  rcases List.mem_map.mp hkv with ⟨kv0, hkv0, heq⟩
  by_cases h : kv0.2.length ≤ cap
  · rw [if_pos h] at heq
    rw [← heq]
    exact h
  · rw [if_neg h] at heq
    rw [← heq]
    exact keepNewest_length_le cap kv0.2

theorem pruneChatLists_keys (cap : Nat)
    (ms : List (String × List StoredMessage)) :
    assocKeys (pruneChatLists cap ms) = assocKeys ms := by
  induction ms with
  | nil => rfl
  | cons kv rest ih =>
      have h1 : (if kv.2.length ≤ cap then kv else (kv.1, keepNewest cap kv.2)).1 =
          kv.1 := by
        by_cases h : kv.2.length ≤ cap <;> simp [h]
      show (if kv.2.length ≤ cap then kv else (kv.1, keepNewest cap kv.2)).1 ::
          assocKeys (pruneChatLists cap rest) = kv.1 :: assocKeys rest
      rw [h1, ih]

theorem pruneChatLists_WF (cap : Nat) (ms : List (String × List StoredMessage))
    (h : StoreWF ms) : StoreWF (pruneChatLists cap ms) := by
  constructor
  · have hk : (pruneChatLists cap ms).map Prod.fst = ms.map Prod.fst :=
      pruneChatLists_keys cap ms
    rw [hk]
    exact h.1
  · intro kv hkv m' hm'
    rcases List.mem_map.mp hkv with ⟨kv0, hkv0, heq⟩
    by_cases hl : kv0.2.length ≤ cap
    · rw [if_pos hl] at heq
      subst heq
      exact h.2 kv0 hkv0 m' hm'
    · rw [if_neg hl] at heq
      subst heq
      have hm2 : m' ∈ kv0.2 := keepNewest_subset cap kv0.2 m' hm'
      exact h.2 kv0 hkv0 m' hm2

theorem StoreWF_set (ms : List (String × List StoredMessage)) (c : String)
    (stored : StoredMessage) (hWF : StoreWF ms) (hc : stored.chatId = c) :
    StoreWF (assocSet ms c ((assocGet ms c).getD [] ++ [stored])) := by
  constructor
  · exact nodup_keys_assocSet ms c _ hWF.1
  · intro kv hkv m' hm'
    rcases mem_assocSet ms c _ kv hkv with heq | hmem
    · subst heq
      rcases List.mem_append.mp hm' with h1 | h2
      · cases hget : assocGet ms c with
        | none =>
            rw [hget] at h1
            cases h1
        | some v =>
            rw [hget] at h1
            have hv : (c, v) ∈ ms := mem_of_assocGet ms c v hget
            exact hWF.2 (c, v) hv m' h1
      · have : m' = stored := by simpa using h2
        rw [this]
        exact hc
    · exact hWF.2 kv hmem m' hm'

theorem mem_flatten_exists (ms : List (String × List StoredMessage))
    (m' : StoredMessage) :
    m' ∈ flattenMessageStore ms → ∃ kv, kv ∈ ms ∧ m' ∈ kv.2 := by
  induction ms with
  | nil =>
      intro h
      exact absurd h (List.not_mem_nil _)
  | cons kv rest ih =>
      intro h
      rw [flattenMessageStore_cons] at h
      rcases List.mem_append.mp h with h1 | h2
      · exact ⟨kv, List.mem_cons_self _ _, h1⟩
      · rcases ih h2 with ⟨kv0, hkv0, hm⟩
        exact ⟨kv0, List.mem_cons_of_mem _ hkv0, hm⟩

theorem countP_flatten_chat_le (cap : Nat) (c : String) :
    ∀ ms, StoreWF ms → (∀ kv ∈ ms, kv.2.length ≤ cap) →
      (flattenMessageStore ms).countP (fun m => decide (m.chatId = c)) ≤ cap := by
  intro ms
  induction ms with
  | nil =>
      intro _ _
      show (flattenMessageStore []).countP _ ≤ cap
      simp [flattenMessageStore]
  | cons kv rest ih =>
      intro hWF hlen
      have hWFr : StoreWF rest := by
        constructor
        · exact (List.nodup_cons.mp hWF.1).2
        · intro kv0 h0 m0 hm0
          exact hWF.2 kv0 (List.mem_cons_of_mem _ h0) m0 hm0
      have hlenr : ∀ kv0 ∈ rest, kv0.2.length ≤ cap :=
        fun kv0 h0 => hlen kv0 (List.mem_cons_of_mem _ h0)
      rw [flattenMessageStore_cons, List.countP_append]
      by_cases hc : kv.1 = c
      · have h2 : (flattenMessageStore rest).countP
            (fun m => decide (m.chatId = c)) = 0 := by
          rw [List.countP_eq_zero]
          intro m0 hm0 hdec
          simp only [decide_eq_true_eq] at hdec
          rcases mem_flatten_exists rest m0 hm0 with ⟨kv0, hkv0, hmkv⟩
          have hck : m0.chatId = kv0.1 :=
            hWF.2 kv0 (List.mem_cons_of_mem _ hkv0) m0 hmkv
          have hkeys : kv.1 ∉ List.map Prod.fst rest := (List.nodup_cons.mp hWF.1).1
          apply hkeys
          have hkk : kv.1 = kv0.1 := by rw [hc, ← hdec, hck]
          rw [hkk]
          exact List.mem_map.mpr ⟨kv0, hkv0, rfl⟩
        have h3 : kv.2.countP (fun m => decide (m.chatId = c)) ≤ cap :=
          le_trans (List.countP_le_length _) (hlen kv (List.mem_cons_self _ _))
        omega
      · have h1 : kv.2.countP (fun m => decide (m.chatId = c)) = 0 := by
          rw [List.countP_eq_zero]
          intro m0 hm0 hdec
          simp only [decide_eq_true_eq] at hdec
          have hck : m0.chatId = kv.1 := hWF.2 kv (List.mem_cons_self _ _) m0 hm0
          exact hc (by rw [← hck, hdec])
        have h2 := ih hWFr hlenr
        omega

theorem rebuild_go_get (c : String) :
    ∀ (keep : List StoredMessage) (acc : List (String × List StoredMessage)),
      (assocGet (keep.foldl (fun st m =>
        assocSet st m.chatId ((assocGet st m.chatId).getD [] ++ [m])) acc) c).getD [] =
      ((assocGet acc c).getD []) ++ keep.filter (fun m => decide (m.chatId = c)) := by
  intro keep
  induction keep with
  | nil => intro acc; simp
  | cons m rest ih =>
      intro acc
      show (assocGet (rest.foldl _
        (assocSet acc m.chatId ((assocGet acc m.chatId).getD [] ++ [m]))) c).getD [] = _
      rw [ih]
      by_cases hc : m.chatId = c
      · subst hc
        rw [assocGet_set_self]
        simp [List.filter_cons, List.append_assoc]
      · rw [assocGet_set_ne acc m.chatId c _ hc]
        simp [List.filter_cons, hc]

theorem rebuild_keys_nodup_go :
    ∀ (keep : List StoredMessage) (acc : List (String × List StoredMessage)),
      (assocKeys acc).Nodup →
      (assocKeys (keep.foldl (fun st m =>
        assocSet st m.chatId ((assocGet st m.chatId).getD [] ++ [m])) acc)).Nodup := by
  intro keep
  induction keep with
  | nil => intro acc h; exact h
  | cons m rest ih =>
      intro acc h
      exact ih _ (nodup_keys_assocSet acc m.chatId _ h)

theorem rebuild_WF (keep : List StoredMessage) :
    StoreWF (rebuildFromList keep) ∧
    ∀ kv ∈ rebuildFromList keep,
      kv.2 = keep.filter (fun m => decide (m.chatId = kv.1)) := by
  have hnd : (assocKeys (rebuildFromList keep)).Nodup :=
    rebuild_keys_nodup_go keep [] (by simp [assocKeys])
  have hget : ∀ c, (assocGet (rebuildFromList keep) c).getD [] =
      keep.filter (fun m => decide (m.chatId = c)) := by
    intro c
    have h := rebuild_go_get c keep []
    simpa [assocGet] using h
  have hmem : ∀ kv ∈ rebuildFromList keep,
      kv.2 = keep.filter (fun m => decide (m.chatId = kv.1)) := by
    intro kv hkv
    have hg := assocGet_of_mem_nodup hnd hkv
    have hg2 := hget kv.1
    rw [hg] at hg2
    simpa using hg2
  refine ⟨⟨hnd, ?_⟩, hmem⟩
  intro kv hkv m0 hm0
  have h2 := hmem kv hkv
  rw [h2] at hm0
  have h3 := (List.mem_filter.mp hm0).2
  simpa using h3

theorem pruneMessageStore_bounds (cfg : StoreConfig) (s : Stores)
    (hWF : StoreWF s.messageStore) :
    (∀ kv ∈ (pruneMessageStore cfg s).messageStore,
      kv.2.length ≤ cfg.maxMessagesPerChat) ∧
    countMessages (pruneMessageStore cfg s).messageStore ≤ cfg.maxMessagesTotal ∧
    StoreWF (pruneMessageStore cfg s).messageStore := by
  have hWF1 : StoreWF (pruneChatLists cfg.maxMessagesPerChat s.messageStore) :=
    pruneChatLists_WF _ _ hWF
  have hlen1 : ∀ kv ∈ pruneChatLists cfg.maxMessagesPerChat s.messageStore,
      kv.2.length ≤ cfg.maxMessagesPerChat := pruneChatLists_length_le _ _
  by_cases h : countMessages (pruneChatLists cfg.maxMessagesPerChat s.messageStore) ≤
      cfg.maxMessagesTotal
  · have heq : (pruneMessageStore cfg s).messageStore =
        pruneChatLists cfg.maxMessagesPerChat s.messageStore := by
      show (if countMessages (pruneChatLists cfg.maxMessagesPerChat s.messageStore) ≤
          cfg.maxMessagesTotal then
          pruneRawMessageStore
            { s with messageStore := pruneChatLists cfg.maxMessagesPerChat s.messageStore }
        else _).messageStore = _
      rw [if_pos h]
      rfl
    rw [heq]
    exact ⟨hlen1, h, hWF1⟩
  · have heq : (pruneMessageStore cfg s).messageStore =
        rebuildFromList
          ((List.insertionSort byTimestamp
            (flattenMessageStore (pruneChatLists cfg.maxMessagesPerChat s.messageStore))).drop
            ((List.insertionSort byTimestamp
              (flattenMessageStore
                (pruneChatLists cfg.maxMessagesPerChat s.messageStore))).length -
              cfg.maxMessagesTotal)) := by
      show (if countMessages (pruneChatLists cfg.maxMessagesPerChat s.messageStore) ≤
          cfg.maxMessagesTotal then
          pruneRawMessageStore
            { s with messageStore := pruneChatLists cfg.maxMessagesPerChat s.messageStore }
        else _).messageStore = _
      rw [if_neg h]
      rfl
    rw [heq]
    obtain ⟨hWFr, hmemr⟩ := rebuild_WF
      ((List.insertionSort byTimestamp
        (flattenMessageStore (pruneChatLists cfg.maxMessagesPerChat s.messageStore))).drop
        ((List.insertionSort byTimestamp
          (flattenMessageStore
            (pruneChatLists cfg.maxMessagesPerChat s.messageStore))).length -
          cfg.maxMessagesTotal))
    refine ⟨?_, ?_, hWFr⟩
    · intro kv hkv
      rw [hmemr kv hkv]
      have hsub := (List.drop_sublist
        ((List.insertionSort byTimestamp
          (flattenMessageStore
            (pruneChatLists cfg.maxMessagesPerChat s.messageStore))).length -
          cfg.maxMessagesTotal)
        (List.insertionSort byTimestamp
          (flattenMessageStore
            (pruneChatLists cfg.maxMessagesPerChat s.messageStore)))).filter
        (fun m => decide (m.chatId = kv.1))
      have h1 := hsub.length_le
      have h2 : ((List.insertionSort byTimestamp
          (flattenMessageStore
            (pruneChatLists cfg.maxMessagesPerChat s.messageStore))).filter
          (fun m => decide (m.chatId = kv.1))).length =
          ((flattenMessageStore
            (pruneChatLists cfg.maxMessagesPerChat s.messageStore)).filter
          (fun m => decide (m.chatId = kv.1))).length :=
        ((List.perm_insertionSort byTimestamp _).filter _).length_eq
      have h3 : ((flattenMessageStore
          (pruneChatLists cfg.maxMessagesPerChat s.messageStore)).filter
          (fun m => decide (m.chatId = kv.1))).length ≤ cfg.maxMessagesPerChat := by
        have h4 := countP_flatten_chat_le cfg.maxMessagesPerChat kv.1
          (pruneChatLists cfg.maxMessagesPerChat s.messageStore) hWF1 hlen1
        rwa [List.countP_eq_length_filter] at h4
      omega
    · rw [countMessages_eq_length_flatten]
      have hlenr : (flattenMessageStore (rebuildFromList
          ((List.insertionSort byTimestamp
            (flattenMessageStore (pruneChatLists cfg.maxMessagesPerChat s.messageStore))).drop
            ((List.insertionSort byTimestamp
              (flattenMessageStore
                (pruneChatLists cfg.maxMessagesPerChat s.messageStore))).length -
              cfg.maxMessagesTotal)))).length =
          ((List.insertionSort byTimestamp
            (flattenMessageStore (pruneChatLists cfg.maxMessagesPerChat s.messageStore))).drop
            ((List.insertionSort byTimestamp
              (flattenMessageStore
                (pruneChatLists cfg.maxMessagesPerChat s.messageStore))).length -
              cfg.maxMessagesTotal)).length := by
        have hc2 := countP_flatten_rebuild
          ((List.insertionSort byTimestamp
            (flattenMessageStore (pruneChatLists cfg.maxMessagesPerChat s.messageStore))).drop
            ((List.insertionSort byTimestamp
              (flattenMessageStore
                (pruneChatLists cfg.maxMessagesPerChat s.messageStore))).length -
              cfg.maxMessagesTotal))
          (fun _ => true)
        simpa using hc2
      rw [hlenr, List.length_drop]
      omega

theorem addToMessageStore_bounded (cfg : StoreConfig) (nowMs : Nat)
    (msg : RawEvent) (s : Stores) (h1 : StoreWF s.messageStore)
    (h2 : ∀ kv ∈ s.messageStore, kv.2.length ≤ cfg.maxMessagesPerChat)
    (h3 : countMessages s.messageStore ≤ cfg.maxMessagesTotal) :
    StoreWF (addToMessageStore cfg nowMs msg s).messageStore ∧
    (∀ kv ∈ (addToMessageStore cfg nowMs msg s).messageStore,
      kv.2.length ≤ cfg.maxMessagesPerChat) ∧
    countMessages (addToMessageStore cfg nowMs msg s).messageStore ≤
      cfg.maxMessagesTotal := by
  cases hjid : msg.key.remoteJid with
  | none =>
      have heq : addToMessageStore cfg nowMs msg s = s := by
        simp [addToMessageStore, hjid]
      rw [heq]
      exact ⟨h1, h2, h3⟩
  | some c =>
      by_cases hc : c = ""
      · have heq : addToMessageStore cfg nowMs msg s = s := by
          simp [addToMessageStore, hjid, hc]
        rw [heq]
        exact ⟨h1, h2, h3⟩
      · have hadd : addToMessageStore cfg nowMs msg s =
            pruneMessageStore cfg
              { messageStore := assocSet s.messageStore c
                  ((assocGet s.messageStore c).getD [] ++
                    [deriveStoredMessage nowMs msg c]),
                rawMessageByKey := assocSet s.rawMessageByKey
                  (c ++ ":" ++ (deriveStoredMessage nowMs msg c).id) msg } := by
          simp [addToMessageStore, hjid, hc]
        rw [hadd]
        have hWFp : StoreWF (assocSet s.messageStore c
            ((assocGet s.messageStore c).getD [] ++
              [deriveStoredMessage nowMs msg c])) :=
          StoreWF_set s.messageStore c (deriveStoredMessage nowMs msg c) h1 rfl
        obtain ⟨ha, hb, hw⟩ := pruneMessageStore_bounds cfg
          { messageStore := assocSet s.messageStore c
              ((assocGet s.messageStore c).getD [] ++
                [deriveStoredMessage nowMs msg c]),
            rawMessageByKey := assocSet s.rawMessageByKey
              (c ++ ":" ++ (deriveStoredMessage nowMs msg c).id) msg } hWFp
        exact ⟨hw, ha, hb⟩

theorem applyEvents_bounded_invariant (cfg : StoreConfig) :
    ∀ (events : List (RawEvent × Nat)) (s : Stores),
      StoreWF s.messageStore →
      (∀ kv ∈ s.messageStore, kv.2.length ≤ cfg.maxMessagesPerChat) →
      countMessages s.messageStore ≤ cfg.maxMessagesTotal →
      StoreWF (applyEvents cfg events s).messageStore ∧
      (∀ kv ∈ (applyEvents cfg events s).messageStore,
        kv.2.length ≤ cfg.maxMessagesPerChat) ∧
      countMessages (applyEvents cfg events s).messageStore ≤
        cfg.maxMessagesTotal := by
  intro events
  induction events with
  | nil => intro s h1 h2 h3; exact ⟨h1, h2, h3⟩
  | cons e rest ih =>
      intro s h1 h2 h3
      obtain ⟨g1, g2, g3⟩ := addToMessageStore_bounded cfg e.2 e.1 s h1 h2 h3
      exact ih (addToMessageStore cfg e.2 e.1 s) g1 g2 g3

/-- C2: for every sequence of appends to the message store, after each
retention-enforcement pass (one runs inside every append) every chat's
list has length at most the per-chat cap and the total stored count is at
most the global cap. -/
theorem message_store_bounded (cfg : StoreConfig)
    (events : List (RawEvent × Nat)) :
    (∀ kv ∈ (applyEvents cfg events emptyStores).messageStore,
      kv.2.length ≤ cfg.maxMessagesPerChat) ∧
    countMessages (applyEvents cfg events emptyStores).messageStore ≤
      cfg.maxMessagesTotal := by
  have h := applyEvents_bounded_invariant cfg events emptyStores
    ⟨List.nodup_nil, by intro kv hkv; cases hkv⟩
    (by intro kv hkv; cases hkv)
    (Nat.zero_le _)
  exact ⟨h.2.1, h.2.2⟩

/-- C2 witness: the bounds at a concrete two-event history with the
default caps. -/
theorem message_store_bounded_witness :
    (∀ kv ∈ (applyEvents
        { maxMessagesPerChat := 200, maxMessagesTotal := 2000, persistMessages := false }
        [({ key := { remoteJid := some "c", fromMe := false, id := some "x",
                     participant := none },
            message := some (MessageContent.conversation "hi"),
            messageTimestamp := WireValue.num (JsNumber.finite 5),
            messageStubType := none, pushName := none }, 0),
         ({ key := { remoteJid := some "d", fromMe := true, id := some "y",
                     participant := none },
            message := some (MessageContent.conversation "yo"),
            messageTimestamp := WireValue.num (JsNumber.finite 6),
            messageStubType := none, pushName := none }, 0)]
        emptyStores).messageStore, kv.2.length ≤ 200) ∧
    countMessages (applyEvents
        { maxMessagesPerChat := 200, maxMessagesTotal := 2000, persistMessages := false }
        [({ key := { remoteJid := some "c", fromMe := false, id := some "x",
                     participant := none },
            message := some (MessageContent.conversation "hi"),
            messageTimestamp := WireValue.num (JsNumber.finite 5),
            messageStubType := none, pushName := none }, 0),
         ({ key := { remoteJid := some "d", fromMe := true, id := some "y",
                     participant := none },
            message := some (MessageContent.conversation "yo"),
            messageTimestamp := WireValue.num (JsNumber.finite 6),
            messageStubType := none, pushName := none }, 0)]
        emptyStores).messageStore ≤ 2000 :=
  message_store_bounded
    { maxMessagesPerChat := 200, maxMessagesTotal := 2000, persistMessages := false }
    [({ key := { remoteJid := some "c", fromMe := false, id := some "x",
                 participant := none },
        message := some (MessageContent.conversation "hi"),
        messageTimestamp := WireValue.num (JsNumber.finite 5),
        messageStubType := none, pushName := none }, 0),
     ({ key := { remoteJid := some "d", fromMe := true, id := some "y",
                 participant := none },
        message := some (MessageContent.conversation "yo"),
        messageTimestamp := WireValue.num (JsNumber.finite 6),
        messageStubType := none, pushName := none }, 0)]

/-! ### C1: raw payload cache keys are a subset of retained message keys -/

theorem rawSubset_pruneRaw (s : Stores) :
    rawSubsetHolds (pruneRawMessageStore s) = true := by
  have hms : (pruneRawMessageStore s).messageStore = s.messageStore := rfl
  have hraw : (pruneRawMessageStore s).rawMessageByKey =
      s.rawMessageByKey.filter
        (fun kv => ((flattenMessageStore s.messageStore).map rawKey).contains kv.1) := rfl
  unfold rawSubsetHolds
  rw [hms, hraw, List.all_eq_true]
  intro k hk
  rcases List.mem_map.mp hk with ⟨kv, hkv, hkeq⟩
  have hf := List.mem_filter.mp hkv
  rw [← hkeq]
  exact hf.2

theorem rawSubset_prune (cfg : StoreConfig) (s : Stores) :
    rawSubsetHolds (pruneMessageStore cfg s) = true := by
  unfold pruneMessageStore
  by_cases h : countMessages (pruneChatLists cfg.maxMessagesPerChat s.messageStore) ≤
      cfg.maxMessagesTotal
  · simp only [h, if_true]
    exact rawSubset_pruneRaw _
  · simp only [h, if_false]
    exact rawSubset_pruneRaw _

theorem rawSubset_addToMessageStore (cfg : StoreConfig) (nowMs : Nat)
    (msg : RawEvent) (s : Stores) (h : rawSubsetHolds s = true) :
    rawSubsetHolds (addToMessageStore cfg nowMs msg s) = true := by
  cases hjid : msg.key.remoteJid with
  | none => simpa [addToMessageStore, hjid] using h
  | some c =>
      by_cases hc : c = ""
      · simpa [addToMessageStore, hjid, hc] using h
      · have hadd : addToMessageStore cfg nowMs msg s =
            pruneMessageStore cfg
              { messageStore := assocSet s.messageStore c
                  ((assocGet s.messageStore c).getD [] ++
                    [deriveStoredMessage nowMs msg c]),
                rawMessageByKey := assocSet s.rawMessageByKey
                  (c ++ ":" ++ (deriveStoredMessage nowMs msg c).id) msg } := by
          simp [addToMessageStore, hjid, hc]
        rw [hadd]
        exact rawSubset_prune _ _

/-- C1 counterexample: the persisted-raw-payload load breaks the subset
invariant.  With a per-chat cap of 1 and a persisted file of two messages
in one chat, `loadMessageStore` trims the store to the newer message, but
`loadRawMessageStore` (which runs no retention pass) reconstructs raw
entries for both file entries, leaving the evicted key `c:a` in the cache
with no retained counterpart. -/
theorem rawPayload_subset_broken_by_load :
    rawSubsetHolds
      (loadRawMessageStore
        { maxMessagesPerChat := 1, maxMessagesTotal := 2000, persistMessages := true }
        [{ id := "a", chatId := "c", sender := "s", senderName := "s",
           timestamp := 1, text := "t1", isFromMe := false, isGroup := false,
           type := "text", media := none },
         { id := "b", chatId := "c", sender := "s", senderName := "s",
           timestamp := 2, text := "t2", isFromMe := false, isGroup := false,
           type := "text", media := none }]
        (loadMessageStore
          { maxMessagesPerChat := 1, maxMessagesTotal := 2000, persistMessages := true }
          [{ id := "a", chatId := "c", sender := "s", senderName := "s",
             timestamp := 1, text := "t1", isFromMe := false, isGroup := false,
             type := "text", media := none },
           { id := "b", chatId := "c", sender := "s", senderName := "s",
             timestamp := 2, text := "t2", isFromMe := false, isGroup := false,
             type := "text", media := none }]
          emptyStores)) = false := by
  decide

/-- C1 amended: for every sequence of message appends (with their
retention passes) starting from the empty stores, and after every
message-store load from disk (which ends in a retention pass), the key set
of the raw payload cache is a subset of the `(chatId, id)` keys of the
retained stored messages.  `loadRawMessageStore` is the one operation that
can break the invariant (see the counterexample); it holds again after the
next retention pass. -/
theorem rawPayload_subset_invariant (cfg : StoreConfig)
    (events : List (RawEvent × Nat)) (file : List StoredMessage) (s : Stores)
    (hp : cfg.persistMessages = true) :
    rawSubsetHolds (applyEvents cfg events emptyStores) = true ∧
    rawSubsetHolds (loadMessageStore cfg file s) = true := by
  constructor
  · have hgen : ∀ (evs : List (RawEvent × Nat)) (s0 : Stores),
        rawSubsetHolds s0 = true → rawSubsetHolds (applyEvents cfg evs s0) = true := by
      intro evs
      induction evs with
      | nil => intro s0 h; simpa [applyEvents] using h
      | cons e rest ih =>
          intro s0 h
          have hstep : applyEvents cfg (e :: rest) s0 =
              applyEvents cfg rest (addToMessageStore cfg e.2 e.1 s0) := rfl
          rw [hstep]
          exact ih _ (rawSubset_addToMessageStore cfg e.2 e.1 s0 h)
    exact hgen events emptyStores rfl
  · unfold loadMessageStore
    rw [hp]
    simp only [Bool.true_eq_false, if_false]
    exact rawSubset_prune _ _

/-- C1 witness: the invariant holds for a one-event history and after a
small load. -/
theorem rawPayload_subset_invariant_witness :
    ({ maxMessagesPerChat := 200, maxMessagesTotal := 2000,
       persistMessages := true } : StoreConfig).persistMessages = true ∧
    (rawSubsetHolds
        (applyEvents
          { maxMessagesPerChat := 200, maxMessagesTotal := 2000, persistMessages := true }
          [({ key := { remoteJid := some "c", fromMe := false, id := some "x",
                       participant := none },
              message := some (MessageContent.conversation "hi"),
              messageTimestamp := WireValue.num (JsNumber.finite 5),
              messageStubType := none, pushName := none }, 0)]
          emptyStores) = true ∧
      rawSubsetHolds
        (loadMessageStore
          { maxMessagesPerChat := 200, maxMessagesTotal := 2000, persistMessages := true }
          [{ id := "a", chatId := "c", sender := "s", senderName := "s",
             timestamp := 1, text := "t1", isFromMe := false, isGroup := false,
             type := "text", media := none }]
          emptyStores) = true) :=
  ⟨rfl,
    rawPayload_subset_invariant
      { maxMessagesPerChat := 200, maxMessagesTotal := 2000, persistMessages := true }
      [({ key := { remoteJid := some "c", fromMe := false, id := some "x",
                   participant := none },
          message := some (MessageContent.conversation "hi"),
          messageTimestamp := WireValue.num (JsNumber.finite 5),
          messageStubType := none, pushName := none }, 0)]
      [{ id := "a", chatId := "c", sender := "s", senderName := "s",
         timestamp := 1, text := "t1", isFromMe := false, isGroup := false,
         type := "text", media := none }]
      emptyStores rfl⟩

/-! ### C7: per-key uniqueness in the message store -/

/-- C7 counterexample: the store does not deduplicate by `(chatId, id)`.
Delivering the very same inbound event twice (same chat `c`, same message
id `x`) leaves two retained `StoredMessage`s for the pair `(c, x)`. -/
theorem message_store_duplicate_key :
    (flattenMessageStore
        (applyEvents { maxMessagesPerChat := 200, maxMessagesTotal := 2000,
                       persistMessages := false }
          [({ key := { remoteJid := some "c", fromMe := false, id := some "x",
                       participant := none },
              message := some (MessageContent.conversation "hi"),
              messageTimestamp := WireValue.num (JsNumber.finite 5),
              messageStubType := none, pushName := none }, 0),
           ({ key := { remoteJid := some "c", fromMe := false, id := some "x",
                       participant := none },
              message := some (MessageContent.conversation "hi"),
              messageTimestamp := WireValue.num (JsNumber.finite 5),
              messageStubType := none, pushName := none }, 0)]
          emptyStores).messageStore).countP
      (fun m => decide (m.chatId = "c" ∧ m.id = "x")) = 2 := by
  decide

/-- C7 amended: for every sequence of inbound events whose derived
`(chatId, id)` pairs are pairwise distinct, after retention enforcement the
message store retains at most one `StoredMessage` per `(chatId, id)` pair.
(The source never deduplicates, so redelivered events with an equal pair
are retained twice — see the counterexample.) -/
theorem message_store_at_most_one_per_key (cfg : StoreConfig)
    (events : List (RawEvent × Nat))
    (hdist : (events.filterMap (fun e => eventKey e.1)).Nodup)
    (p : String × String) :
    (flattenMessageStore (applyEvents cfg events emptyStores).messageStore).countP
      (fun m => decide (m.chatId = p.1 ∧ m.id = p.2)) ≤ 1 := by
  have h1 := applyEvents_countP_le cfg events emptyStores p
  have h2 := countP_eventKey_le_one events hdist p
  have hz : (flattenMessageStore emptyStores.messageStore).countP
      (fun m => decide (m.chatId = p.1 ∧ m.id = p.2)) = 0 := rfl
  omega

/-- C7 witness: two distinct-keyed events leave at most one message for
the pair `("c", "x")`. -/
theorem message_store_at_most_one_per_key_witness :
    ([({ key := { remoteJid := some "c", fromMe := false, id := some "x",
                  participant := none },
         message := some (MessageContent.conversation "hi"),
         messageTimestamp := WireValue.num (JsNumber.finite 5),
         messageStubType := none, pushName := none }, 0),
      ({ key := { remoteJid := some "c", fromMe := false, id := some "y",
                  participant := none },
         message := some (MessageContent.conversation "yo"),
         messageTimestamp := WireValue.num (JsNumber.finite 6),
         messageStubType := none, pushName := none }, 0)].filterMap
        (fun e => eventKey e.1)).Nodup ∧
    (flattenMessageStore
        (applyEvents { maxMessagesPerChat := 200, maxMessagesTotal := 2000,
                       persistMessages := false }
          [({ key := { remoteJid := some "c", fromMe := false, id := some "x",
                       participant := none },
              message := some (MessageContent.conversation "hi"),
              messageTimestamp := WireValue.num (JsNumber.finite 5),
              messageStubType := none, pushName := none }, 0),
           ({ key := { remoteJid := some "c", fromMe := false, id := some "y",
                       participant := none },
              message := some (MessageContent.conversation "yo"),
              messageTimestamp := WireValue.num (JsNumber.finite 6),
              messageStubType := none, pushName := none }, 0)]
          emptyStores).messageStore).countP
      (fun m => decide (m.chatId = "c" ∧ m.id = "x")) ≤ 1 :=
  ⟨by decide,
    message_store_at_most_one_per_key
      { maxMessagesPerChat := 200, maxMessagesTotal := 2000, persistMessages := false }
      [({ key := { remoteJid := some "c", fromMe := false, id := some "x",
                   participant := none },
          message := some (MessageContent.conversation "hi"),
          messageTimestamp := WireValue.num (JsNumber.finite 5),
          messageStubType := none, pushName := none }, 0),
       ({ key := { remoteJid := some "c", fromMe := false, id := some "y",
                   participant := none },
          message := some (MessageContent.conversation "yo"),
          messageTimestamp := WireValue.num (JsNumber.finite 6),
          messageStubType := none, pushName := none }, 0)]
      (by decide) ("c", "x")⟩

end Whatsapp
